import Mathlib

/-!
Verification development for the ATS-Resume assessment pipeline.

We give a shallow embedding of the repository's core Python modules:
`app/services/pipeline.py` (cache keys, per-stage caching, the six-stage
orchestrator), `app/services/resume_parser.py` (the deterministic stage-C
parser), `app/services/llm_adapters/mock_adapter.py`, the retrying HTTP
adapter, `app/services/llm_adapter.py` (facade with fallback),
`app/services/queue.py` and `app/services/worker_streams.py` (stream worker:
idempotency, retry bookkeeping, DLQ, pending reclaim).

Python dict/JSON values are embedded as the inductive type `J`; numbers are
embedded as rationals, machine-level float formatting is abstracted.
Exceptions are embedded as `Except String`.  External collaborators
(Redis, object store, json.loads, the HTTP transport) are parameters of the
models.
-/

set_option maxRecDepth 4000

/-- Embedded JSON / Python value. Numbers are rationals (`0.8` is `4/5`);
dicts are association lists in insertion order. -/
inductive J where
  | null : J
  | bool (b : Bool) : J
  | num (q : ℚ) : J
  | str (s : String) : J
  | arr (l : List J) : J
  | obj (kvs : List (String × J)) : J

/-- A Python dict value (insertion-ordered association list). -/
abbrev Obj := List (String × J)

/-! ### Lexicographic string order (Python `str` comparison, by code point)

Python sorts dict keys with `str` comparison, which is lexicographic on
unicode code points.  We define it as a boolean function so it reduces in
the kernel. -/

/-- Lexicographic `≤` on char lists by code point. -/
def lexLeb : List Char → List Char → Bool
  | x :: xs, y :: ys =>
    if x.toNat < y.toNat then true
    else if y.toNat < x.toNat then false
    else lexLeb xs ys
  | [], _ => true
  | _, [] => false

/-- Python string `≤` (code-point lexicographic). -/
def pyStrLeb (a b : String) : Bool := lexLeb a.data b.data

theorem lexLeb_total : ∀ a b, lexLeb a b = true ∨ lexLeb b a = true
  | [], b => Or.inl (by cases b <;> rfl)
  | _ :: _, [] => Or.inr rfl
  | a :: as, b :: bs => by
    by_cases h1 : a.toNat < b.toNat
    · exact Or.inl (by simp [lexLeb, h1])
    · by_cases h2 : b.toNat < a.toNat
      · exact Or.inr (by simp [lexLeb, h2, Nat.lt_asymm h2])
      · rcases lexLeb_total as bs with h | h
        · exact Or.inl (by simp [lexLeb, h1, h2, h])
        · exact Or.inr (by simp [lexLeb, h1, h2, h])

theorem char_toNat_inj {a b : Char} (h : a.toNat = b.toNat) : a = b := by
  rcases a with ⟨⟨av, _⟩, _⟩
  rcases b with ⟨⟨bv, _⟩, _⟩
  simp only [Char.toNat, UInt32.toNat] at h
  subst h
  rfl

theorem lexLeb_antisymm : ∀ a b, lexLeb a b = true → lexLeb b a = true → a = b
  | [], [], _, _ => rfl
  | [], _ :: _, _, h => by simp [lexLeb] at h
  | _ :: _, [], h, _ => by simp [lexLeb] at h
  | a :: as, b :: bs, h1, h2 => by
    by_cases hab : a.toNat < b.toNat
    · simp [lexLeb, hab, Nat.lt_asymm hab] at h2
    · by_cases hba : b.toNat < a.toNat
      · simp [lexLeb, hab, hba] at h1
      · have he : a = b := char_toNat_inj (Nat.le_antisymm (Nat.le_of_not_lt hba) (Nat.le_of_not_lt hab))
        simp [lexLeb, hab, hba] at h1 h2
        rw [he, lexLeb_antisymm as bs h1 h2]

theorem lexLeb_cons (a c : Char) (as cs : List Char) :
    lexLeb (a :: as) (c :: cs)
      = if a.toNat < c.toNat then true else if c.toNat < a.toNat then false else lexLeb as cs :=
  rfl

theorem lexLeb_trans : ∀ a b c, lexLeb a b = true → lexLeb b c = true → lexLeb a c = true
  | [], _, c, _, _ => by cases c <;> rfl
  | _ :: _, [], _, h, _ => by simp [lexLeb] at h
  | _ :: _, _ :: _, [], _, h => by simp [lexLeb] at h
  | a :: as, b :: bs, c :: cs, h1, h2 => by
    rw [lexLeb_cons] at h1 h2 ⊢
    rcases Nat.lt_trichotomy a.toNat b.toNat with hab | hab | hab
    · rcases Nat.lt_trichotomy b.toNat c.toNat with hbc | hbc | hbc
      · rw [if_pos (Nat.lt_trans hab hbc)]
      · rw [if_pos (hbc ▸ hab)]
      · rw [if_neg (Nat.lt_asymm hbc), if_pos hbc] at h2; exact absurd h2 (by simp)
    · rcases Nat.lt_trichotomy b.toNat c.toNat with hbc | hbc | hbc
      · rw [if_pos (hab ▸ hbc)]
      · have hac : a.toNat = c.toNat := hab.trans hbc
        rw [if_neg (hab ▸ Nat.lt_irrefl _), if_neg (hab ▸ Nat.lt_irrefl _)] at h1
        rw [if_neg (hbc ▸ Nat.lt_irrefl _), if_neg (hbc ▸ Nat.lt_irrefl _)] at h2
        rw [if_neg (hac ▸ Nat.lt_irrefl _), if_neg (hac ▸ Nat.lt_irrefl _)]
        exact lexLeb_trans as bs cs h1 h2
      · rw [if_neg (Nat.lt_asymm hbc), if_pos hbc] at h2; exact absurd h2 (by simp)
    · rw [if_neg (Nat.lt_asymm hab), if_pos hab] at h1; exact absurd h1 (by simp)

theorem pyStrLeb_antisymm {a b : String} (h1 : pyStrLeb a b = true) (h2 : pyStrLeb b a = true) :
    a = b := by
  rcases a with ⟨la⟩
  rcases b with ⟨lb⟩
  have := lexLeb_antisymm la lb h1 h2
  rw [this]

/-- Key order used by `json.dumps(sort_keys=True)`: compare keys as Python
strings. -/
def keyLe (a b : String × J) : Prop := pyStrLeb a.1 b.1 = true

instance : DecidableRel keyLe := fun a b => inferInstanceAs (Decidable (_ = true))

instance : IsTotal (String × J) keyLe :=
  ⟨fun a b => lexLeb_total a.1.data b.1.data⟩

instance : IsTrans (String × J) keyLe :=
  ⟨fun a b c => lexLeb_trans a.1.data b.1.data c.1.data⟩

/-- Strict key order: `≤` on keys together with key distinctness. -/
def keyLt (a b : String × J) : Prop := keyLe a b ∧ a.1 ≠ b.1

instance : IsAntisymm (String × J) keyLt :=
  ⟨fun _ _ h1 h2 => absurd (pyStrLeb_antisymm h1.1 h2.1) h1.2⟩

mutual
/-- Recursively sort all object key lists (the canonical form that
`json.dumps(..., sort_keys=True)` serializes). -/
def canonJ : J → J
  | .null => .null
  | .bool b => .bool b
  | .num q => .num q
  | .str s => .str s
  | .arr l => .arr (canonA l)
  | .obj kvs => .obj (List.insertionSort keyLe (canonO kvs))

def canonA : List J → List J
  | [] => []
  | v :: t => canonJ v :: canonA t

def canonO : List (String × J) → List (String × J)
  | [] => []
  | (k, v) :: t => (k, canonJ v) :: canonO t
end

example : canonJ (.obj [("b", .num 1), ("a", .arr [.obj [("z", .null), ("y", .bool true)]])])
    = .obj [("a", .arr [.obj [("y", .bool true), ("z", .null)]]), ("b", .num 1)] := rfl

/-! ### Serialization (`json.dumps` with `sort_keys=True`, separators `(",", ":")`,
`ensure_ascii=False`)

The exact decimal rendering of non-integer numbers is abstracted by the
rational's `toString`; no theorem below depends on digit rendering. -/

/-- Fixed-width lowercase hex of `n` with `w` digits (big-endian). -/
def toHexFixed (w n : Nat) : String :=
  String.mk ((List.range w).map (fun i =>
    let d := n / 16 ^ (w - 1 - i) % 16
    if d < 10 then Char.ofNat (48 + d) else Char.ofNat (87 + d)))

/-- JSON string escaping as performed by `json.dumps(..., ensure_ascii=False)`. -/
def jsonEscapeChar (c : Char) : String :=
  if c = '\\' then "\\\\"
  else if c = '"' then "\\\""
  else if c = '\n' then "\\n"
  else if c = '\t' then "\\t"
  else if c = '\r' then "\\r"
  else if c.toNat = 8 then "\\b"
  else if c.toNat = 12 then "\\f"
  else if c.toNat < 32 then "\\u" ++ toHexFixed 4 c.toNat
  else String.singleton c

def jsonStr (s : String) : String :=
  "\"" ++ String.join (s.data.map jsonEscapeChar) ++ "\""

/-- Rendering of a JSON number; integers print as integers. -/
def jsonNum (q : ℚ) : String :=
  if q.den = 1 then toString q.num else toString q

mutual
/-- Plain serializer (no key sorting): `json.dumps` with separators
`(",", ":")` applied to an already canonicalized value. -/
def serJ : J → String
  | .null => "null"
  | .bool true => "true"
  | .bool false => "false"
  | .num q => jsonNum q
  | .str s => jsonStr s
  | .arr l => "[" ++ serA l ++ "]"
  | .obj kvs => "\x7b" ++ serO kvs ++ "\x7d"

def serA : List J → String
  | [] => ""
  | [v] => serJ v
  | v :: t => serJ v ++ "," ++ serA t

def serO : List (String × J) → String
  | [] => ""
  | [(k, v)] => jsonStr k ++ ":" ++ serJ v
  | (k, v) :: t => jsonStr k ++ ":" ++ serJ v ++ "," ++ serO t
end

mutual
/-- Well-formed value: every object's key list is duplicate-free (always the
case for values that come from Python dicts / parsed JSON). -/
def wfJ : J → Bool
  | .null | .bool _ | .num _ | .str _ => true
  | .arr l => wfA l
  | .obj kvs => ((kvs.map Prod.fst).Nodup : Bool) && wfO kvs

def wfA : List J → Bool
  | [] => true
  | v :: t => wfJ v && wfA t

def wfO : List (String × J) → Bool
  | [] => true
  | (_, v) :: t => wfJ v && wfO t
end

mutual
/-- Structural equality of JSON values: equal scalars, pointwise equal
arrays, and objects equal as key-value maps regardless of insertion order. -/
inductive SEq : J → J → Prop where
  | null : SEq .null .null
  | bool (b : Bool) : SEq (.bool b) (.bool b)
  | num (q : ℚ) : SEq (.num q) (.num q)
  | str (s : String) : SEq (.str s) (.str s)
  | arr {l1 l2 : List J} : SEqA l1 l2 → SEq (.arr l1) (.arr l2)
  | obj {l1 l1' l2 : List (String × J)} :
      l1.Perm l1' → SEqO l1' l2 → SEq (.obj l1) (.obj l2)

inductive SEqA : List J → List J → Prop where
  | nil : SEqA [] []
  | cons {a b : J} {t1 t2 : List J} : SEq a b → SEqA t1 t2 → SEqA (a :: t1) (b :: t2)

inductive SEqO : List (String × J) → List (String × J) → Prop where
  | nil : SEqO [] []
  | cons {k : String} {v w : J} {t1 t2 : List (String × J)} :
      SEq v w → SEqO t1 t2 → SEqO ((k, v) :: t1) ((k, w) :: t2)
end

theorem canonO_eq_map : ∀ l, canonO l = l.map (fun p => (p.1, canonJ p.2))
  | [] => rfl
  | (k, v) :: t => by simp [canonO, canonO_eq_map t]

theorem canonO_keys (l : List (String × J)) :
    (canonO l).map Prod.fst = l.map Prod.fst := by
  rw [canonO_eq_map]; simp

theorem wfO_all (l : List (String × J)) : wfO l = l.all (fun p => wfJ p.2) := by
  induction l with
  | nil => rfl
  | cons p t ih => rcases p with ⟨k, v⟩; simp [wfO, ih, List.all_cons]

theorem wfO_perm {l l' : List (String × J)} (h : l.Perm l') (hw : wfO l = true) :
    wfO l' = true := by
  rw [wfO_all] at hw ⊢
  rw [List.all_eq_true] at hw ⊢
  exact fun p hp => hw p (h.symm.subset hp)

/-- Insertion sort by key is determined by the multiset of entries as long as
keys are duplicate-free. -/
theorem insertionSort_eq_of_perm {l1 l2 : List (String × J)} (hp : l1.Perm l2)
    (hnd : (l1.map Prod.fst).Nodup) :
    List.insertionSort keyLe l1 = List.insertionSort keyLe l2 := by
  have p1 := List.perm_insertionSort keyLe l1
  have p2 := List.perm_insertionSort keyLe l2
  have hperm : (List.insertionSort keyLe l1).Perm (List.insertionSort keyLe l2) :=
    (p1.trans hp).trans p2.symm
  have hnd1 : ((List.insertionSort keyLe l1).map Prod.fst).Nodup :=
    ((p1.map Prod.fst).nodup_iff).2 hnd
  have hnd2 : ((List.insertionSort keyLe l2).map Prod.fst).Nodup :=
    ((p2.map Prod.fst).nodup_iff).2 (((hp.map Prod.fst).nodup_iff).1 hnd)
  have hs1 : (List.insertionSort keyLe l1).Pairwise keyLt := by
    have hle := List.sorted_insertionSort keyLe l1
    have hne : (List.insertionSort keyLe l1).Pairwise (fun a b : String × J => a.1 ≠ b.1) :=
      (List.pairwise_map).1 hnd1
    exact hle.and hne
  have hs2 : (List.insertionSort keyLe l2).Pairwise keyLt := by
    have hle := List.sorted_insertionSort keyLe l2
    have hne : (List.insertionSort keyLe l2).Pairwise (fun a b : String × J => a.1 ≠ b.1) :=
      (List.pairwise_map).1 hnd2
    exact hle.and hne
  exact List.eq_of_perm_of_sorted hperm hs1 hs2

mutual
/-- Canonicalization maps structurally equal well-formed values to the same
normal form. -/
theorem canonJ_seq : ∀ {v1 v2 : J}, SEq v1 v2 → wfJ v1 = true → canonJ v1 = canonJ v2
  | _, _, .null, _ => rfl
  | _, _, .bool _, _ => rfl
  | _, _, .num _, _ => rfl
  | _, _, .str _, _ => rfl
  | _, _, .arr h, hw => by
    simp only [canonJ]
    rw [canonA_seq h (by simpa [wfJ] using hw)]
  | _, _, @SEq.obj l1 l1' l2 hp ho, hw => by
    simp only [canonJ]
    have hw' : wfO l1 = true := by
      have := hw; simp [wfJ, Bool.and_eq_true] at this; exact this.2
    have hnd : (l1.map Prod.fst).Nodup := by
      have := hw; simp [wfJ, Bool.and_eq_true] at this; exact this.1
    have h1 : canonO l1' = canonO l2 := canonO_seq ho (wfO_perm hp hw')
    have hperm : (canonO l1).Perm (canonO l1') := by
      rw [canonO_eq_map, canonO_eq_map]; exact hp.map _
    have hndc : ((canonO l1).map Prod.fst).Nodup := by rw [canonO_keys]; exact hnd
    rw [insertionSort_eq_of_perm hperm hndc, h1]

theorem canonA_seq : ∀ {l1 l2 : List J}, SEqA l1 l2 → wfA l1 = true → canonA l1 = canonA l2
  | _, _, .nil, _ => rfl
  | _, _, .cons h t, hw => by
    simp only [canonA]
    simp only [wfA, Bool.and_eq_true] at hw
    rw [canonJ_seq h hw.1, canonA_seq t hw.2]

theorem canonO_seq : ∀ {l1 l2 : List (String × J)}, SEqO l1 l2 → wfO l1 = true →
    canonO l1 = canonO l2
  | _, _, .nil, _ => rfl
  | _, _, .cons h t, hw => by
    simp only [canonO]
    simp only [wfO, Bool.and_eq_true] at hw
    rw [canonJ_seq h hw.1, canonO_seq t hw.2]
end

/-! ### SHA-256 (`hashlib.sha256(...).hexdigest()`)

A from-scratch executable SHA-256 over natural numbers, with all 32-bit
arithmetic reduced modulo `2 ^ 32` explicitly. -/

/-- Truncate to 32 bits. -/
def w32 (n : Nat) : Nat := n % 4294967296

/-- Rotate a 32-bit word right by `b`. -/
def rotr32 (b n : Nat) : Nat := n / 2 ^ b + n % 2 ^ b * 2 ^ (32 - b)

/-- UTF-8 encoding of one code point. -/
def utf8EncodeChar (c : Char) : List Nat :=
  let n := c.toNat
  if n < 128 then [n]
  else if n < 2048 then [192 + n / 64, 128 + n % 64]
  else if n < 65536 then [224 + n / 4096, 128 + n / 64 % 64, 128 + n % 64]
  else [240 + n / 262144, 128 + n / 4096 % 64, 128 + n / 64 % 64, 128 + n % 64]

/-- UTF-8 bytes of a string (Python `s.encode("utf-8")`). -/
def utf8Bytes (s : String) : List Nat := (s.data.map utf8EncodeChar).join

/-- SHA-256 round constants. -/
def shaK : List Nat :=
  [1116352408, 1899447441, 3049323471, 3921009573, 961987163, 1508970993,
   2453635748, 2870763221, 3624381080, 310598401, 607225278, 1426881987,
   1925078388, 2162078206, 2614888103, 3248222580, 3835390401, 4022224774,
   264347078, 604807628, 770255983, 1249150122, 1555081692, 1996064986,
   2554220882, 2821834349, 2952996808, 3210313671, 3336571891, 3584528711,
   113926993, 338241895, 666307205, 773529912, 1294757372, 1396182291,
   1695183700, 1986661051, 2177026350, 2456956037, 2730485921, 2820302411,
   3259730800, 3345764771, 3516065817, 3600352804, 4094571909, 275423344,
   430227734, 506948616, 659060556, 883997877, 958139571, 1322822218,
   1537002063, 1747873779, 1955562222, 2024104815, 2227730452, 2361852424,
   2428436474, 2756734187, 3204031479, 3329325298]

/-- SHA-256 padding: append `0x80`, zeros, then the 64-bit big-endian bit length. -/
def sha256Pad (msg : List Nat) : List Nat :=
  let L := msg.length
  let k := (119 - L % 64) % 64
  msg ++ [128] ++ List.replicate k 0 ++
    (List.range 8).map (fun i => 8 * L / 2 ^ (8 * (7 - i)) % 256)

/-- Group bytes into big-endian 32-bit words. -/
def bytesToWords : List Nat → List Nat
  | b0 :: b1 :: b2 :: b3 :: rest =>
    (b0 * 16777216 + b1 * 65536 + b2 * 256 + b3) :: bytesToWords rest
  | _ => []

/-- Group a word list into 16-word blocks (input length is a multiple of 16). -/
def wordsToBlocks : List Nat → List (List Nat)
  | w0 :: w1 :: w2 :: w3 :: w4 :: w5 :: w6 :: w7 ::
    w8 :: w9 :: w10 :: w11 :: w12 :: w13 :: w14 :: w15 :: rest =>
    [w0, w1, w2, w3, w4, w5, w6, w7, w8, w9, w10, w11, w12, w13, w14, w15]
      :: wordsToBlocks rest
  | _ => []

/-- Message-schedule extension step, operating on the reversed schedule. -/
def shaExtendLoop : Nat → List Nat → List Nat
  | 0, r => r
  | n + 1, r =>
    let s0 := rotr32 7 (r.getD 14 0) ^^^ rotr32 18 (r.getD 14 0) ^^^ r.getD 14 0 / 2 ^ 3
    let s1 := rotr32 17 (r.getD 1 0) ^^^ rotr32 19 (r.getD 1 0) ^^^ r.getD 1 0 / 2 ^ 10
    shaExtendLoop n (w32 (r.getD 15 0 + s0 + r.getD 6 0 + s1) :: r)

/-- The 64-word message schedule of one block. -/
def shaSchedule (block : List Nat) : List Nat :=
  (shaExtendLoop 48 block.reverse).reverse

/-- Working state of the compression function. -/
structure ShaState where
  a : Nat
  b : Nat
  c : Nat
  d : Nat
  e : Nat
  f : Nat
  g : Nat
  h : Nat

/-- One compression round. -/
def shaRound (st : ShaState) (kw : Nat × Nat) : ShaState :=
  let S1 := rotr32 6 st.e ^^^ rotr32 11 st.e ^^^ rotr32 25 st.e
  let ch := st.e &&& st.f ^^^ (st.e ^^^ 4294967295) &&& st.g
  let temp1 := w32 (st.h + S1 + ch + kw.1 + kw.2)
  let S0 := rotr32 2 st.a ^^^ rotr32 13 st.a ^^^ rotr32 22 st.a
  let maj := st.a &&& st.b ^^^ st.a &&& st.c ^^^ st.b &&& st.c
  let temp2 := w32 (S0 + maj)
  ⟨w32 (temp1 + temp2), st.a, st.b, st.c, w32 (st.d + temp1), st.e, st.f, st.g⟩

/-- Process one 16-word block. -/
def shaBlock (st : ShaState) (block : List Nat) : ShaState :=
  let e := (shaK.zip (shaSchedule block)).foldl shaRound st
  ⟨w32 (st.a + e.a), w32 (st.b + e.b), w32 (st.c + e.c), w32 (st.d + e.d),
   w32 (st.e + e.e), w32 (st.f + e.f), w32 (st.g + e.g), w32 (st.h + e.h)⟩

/-- SHA-256 digest of a byte list, rendered as 64 lowercase hex characters. -/
def sha256HexBytes (msg : List Nat) : String :=
  let st := (wordsToBlocks (bytesToWords (sha256Pad msg))).foldl shaBlock
    ⟨1779033703, 3144134277, 1013904242, 2773480762,
     1359893119, 2600822924, 528734635, 1541459225⟩
  toHexFixed 8 st.a ++ toHexFixed 8 st.b ++ toHexFixed 8 st.c ++ toHexFixed 8 st.d ++
  toHexFixed 8 st.e ++ toHexFixed 8 st.f ++ toHexFixed 8 st.g ++ toHexFixed 8 st.h

/-- `hashlib.sha256(s.encode("utf-8")).hexdigest()`. -/
def sha256hex (s : String) : String := sha256HexBytes (utf8Bytes s)

example : sha256hex "" = "e3b0c44298fc1c149afbf4c8996fb92427ae41e4649b934ca495991b7852b855" := rfl

example : sha256hex "abc" = "ba7816bf8f01cfea414140de5dae2223b00361a396177a9cb410ff61f20015ad" := rfl

/-! ### Cache keys (`pipeline._serialize_for_cache`, `pipeline._cache_key`) -/

/-- Deterministic JSON serialization used for cache keys
(`json.dumps(obj, sort_keys=True, default=str, separators=(",", ":"),
ensure_ascii=False)`).  The `repr` fallback is unreachable for JSON-like
values. -/
def _serialize_for_cache (v : J) : String := serJ (canonJ v)

/-- Stable cache key for a stage: SHA-256 of `f"{stage_name}|{seed}|{serialized}"`
prefixed with the `pipeline` namespace and the stage name. -/
def _cache_key (stage_name : String) (payload : J) (seed : Int) : String :=
  "pipeline:" ++ stage_name ++ ":"
    ++ sha256hex (stage_name ++ "|" ++ toString seed ++ "|" ++ _serialize_for_cache payload)

/-! ### Python value helpers used by the pipeline and the worker -/

/-- Python truthiness of an embedded value. -/
def jTruthy : J → Bool
  | .null => false
  | .bool b => b
  | .num q => decide (q ≠ 0)
  | .str s => decide (s ≠ "")
  | .arr l => !l.isEmpty
  | .obj kvs => !kvs.isEmpty

/-- Total `dict.get(k, default)` on an association list known to be a dict. -/
def oGet (d : Obj) (k : String) (dflt : J) : J :=
  match d.find? (fun p => decide (p.1 = k)) with
  | some p => p.2
  | none => dflt

/-- Python `a or b` (truthiness-based). -/
def pyOr (a b : J) : J := if jTruthy a then a else b

/-- `v.get(k, default)` on an arbitrary value: raises `AttributeError` when
`v` is not a dict. -/
def pyGet (v : J) (k : String) (dflt : J) : Except String J :=
  match v with
  | .obj kvs => .ok (oGet kvs k dflt)
  | _ => .error "AttributeError: object has no attribute get"

/-- Python `v[0]` on an arbitrary value. -/
def pyIndex0 : J → Except String J
  | .arr (x :: _) => .ok x
  | .arr [] => .error "IndexError: list index out of range"
  | .str s =>
    match s.data with
    | c :: _ => .ok (.str (String.mk [c]))
    | [] => .error "IndexError: string index out of range"
  | _ => .error "TypeError: object is not subscriptable"

/-! ### Pipeline orchestrator (`app/services/pipeline.py`)

The cache is a pure key-value map (a cache read never fails in the model;
the code additionally swallows cache I/O errors).  The LLM adapter facade
and the stage-C parser are parameters: both are Python calls that may raise,
embedded as `Except`-valued functions returning stage-result dicts. -/

/-- State of the deterministic cache. -/
def Cache := String → Option Obj

def emptyCache : Cache := fun _ => none

def cacheSet (c : Cache) (k : String) (v : Obj) : Cache :=
  fun k' => if k' = k then some v else c k'

/-- Behavior of `llm_adapter.run_stage` as seen by the orchestrator. -/
abbrev AdapterFn := String → J → Int → Except String Obj

/-- Behavior of `parse_resume_text(file_text, original_layout)` as called by
stage C (any Python call may raise). -/
abbrev ParseFn := J → J → Except String Obj

/-- The degraded stage result produced when running a stage raises. -/
def errObj (msg : String) : Obj :=
  [("error", .bool true), ("error_message", .str msg), ("confidence", .num 0)]

/-- `pipeline._run_stage_with_cache`: cache lookup, adapter call with error
containment, unconditional best-effort cache write of the computed result. -/
def _run_stage_with_cache (adapter : AdapterFn) (stage_name : String) (payload : J)
    (seed : Int) (c : Cache) : Obj × Cache :=
  let key := _cache_key stage_name payload seed
  match c key with
  | some cached => (cached, c)
  | none =>
    let result :=
      match adapter stage_name payload seed with
      | .ok r => r
      | .error e => errObj e
    (result, cacheSet c key result)

/-- The `results` map accumulated by the stage loop. -/
abbrev Results := List (String × Obj)

/-- `results.get(stage, {})`. -/
def resGet (rs : Results) (k : String) : Obj :=
  match rs.find? (fun p => decide (p.1 = k)) with
  | some p => p.2
  | none => []

/-- Stage A payload construction. -/
def buildPayloadA (job : Obj) : J :=
  .obj [("content", pyOr (oGet job "raw_text" (.str "")) (oGet job "content" (.str ""))),
        ("source_url", oGet job "source_url" .null),
        ("company", oGet job "company" .null),
        ("config", oGet job "config" (.obj [("infer_ats", .bool true)]))]

/-- Stage B payload construction (the nested
`prev_a.get("ats_candidates", [{}])[0].get("name")` expression may raise). -/
def buildPayloadB (job : Obj) (prevA : Obj) : Except String J := do
  let platform ←
    if jTruthy (oGet prevA "ats_candidates" .null) then do
      let first ← pyIndex0 (oGet prevA "ats_candidates" (.arr [.obj []]))
      pyGet first "name" .null
    else pure .null
  pure (.obj [("cleaned_text", oGet prevA "cleaned_text" (oGet job "raw_text" (.str ""))),
              ("ats_candidates", oGet prevA "ats_candidates" (.arr [])),
              ("config", .obj [("platform", platform),
                               ("prioritize_ats_keywords", .bool true)])])

/-- Stage C: deterministic parse path when `file_text` is truthy (with its own
cache write of the parsed output), adapter path otherwise. -/
def stageC (adapter : AdapterFn) (parseFn : ParseFn) (resume : Obj) (seed : Int)
    (c : Cache) : Obj × Cache :=
  let file_text := oGet resume "file_text" .null
  if jTruthy file_text then
    match parseFn file_text (oGet resume "original_layout" (.obj [])) with
    | .error e => (errObj e, c)
    | .ok parsed =>
      let out :=
        if (parsed.find? (fun p => decide (p.1 = "confidence"))).isSome then parsed
        else parsed ++ [("confidence", .num (4 / 5))]
      let key := _cache_key "C_RESUME_PARSE"
        (.obj [("file_text", file_text),
               ("original_layout", oGet resume "original_layout" (.obj []))]) seed
      (out, cacheSet c key out)
  else
    _run_stage_with_cache adapter "C_RESUME_PARSE"
      (.obj [("file_text", .str ""),
             ("original_layout", oGet resume "original_layout" (.obj []))]) seed c

/-- Run one stage: build the stage payload from prior results and execute it
(the body of the `for` loop in `run_assessment_pipeline`, including the
payload-construction dispatch). -/
def stageRun (adapter : AdapterFn) (parseFn : ParseFn) (job resume : Obj) (seed : Int)
    (results : Results) (c : Cache) (stage_name : String) : Obj × Cache :=
  if stage_name = "A_JD_NORMALIZER" then
      _run_stage_with_cache adapter stage_name (buildPayloadA job) seed c
    else if stage_name = "B_JD_EXTRACT" then
      match buildPayloadB job (resGet results "A_JD_NORMALIZER") with
      | .error e => (errObj e, c)
      | .ok p => _run_stage_with_cache adapter stage_name p seed c
    else if stage_name = "C_RESUME_PARSE" then
      stageC adapter parseFn resume seed c
    else if stage_name = "D_MATCHER_SCORER" then
      _run_stage_with_cache adapter stage_name
        (.obj [("jd", .obj (resGet results "B_JD_EXTRACT")),
               ("resume", .obj (resGet results "C_RESUME_PARSE")),
               ("config", oGet job "scoring_config" (.obj []))]) seed c
    else if stage_name = "E_RECOMMEND" then
      _run_stage_with_cache adapter stage_name
        (.obj [("score", oGet (resGet results "D_MATCHER_SCORER") "score" .null),
               ("jd", .obj (resGet results "B_JD_EXTRACT")),
               ("resume", .obj (resGet results "C_RESUME_PARSE")),
               ("config", oGet job "recommend_config" (.obj []))]) seed c
    else if stage_name = "F_LATEX_ADAPT" then
      _run_stage_with_cache adapter stage_name
        (.obj [("recommendation", .obj (resGet results "E_RECOMMEND")),
               ("template", oGet job "template" (.str "onepage"))]) seed c
    else
      _run_stage_with_cache adapter stage_name (.obj []) seed c

/-- One iteration of the stage loop: run the stage (with error containment
already applied inside `stageRun`) and append its output to `results`. -/
def stageStep (adapter : AdapterFn) (parseFn : ParseFn) (job resume : Obj) (seed : Int)
    (acc : Results × Cache) (stage_name : String) : Results × Cache :=
  let oc := stageRun adapter parseFn job resume seed acc.1 acc.2 stage_name
  (acc.1 ++ [(stage_name, oc.1)], oc.2)

/-- The canonical ordered stage names. -/
def STAGE_NAMES : List String :=
  ["A_JD_NORMALIZER", "B_JD_EXTRACT", "C_RESUME_PARSE",
   "D_MATCHER_SCORER", "E_RECOMMEND", "F_LATEX_ADAPT"]

/-- The final assessment record returned by the pipeline. -/
structure PipelineResult where
  id : String
  created_at : String
  stages : Results
  final_score : J
  job_id : J
  resume_id : J
  meta : Obj
  assessment_id : Option String

/-- Whether Python `float(v)` succeeds (numbers, bools, simple decimal
strings; the full float grammar is abstracted). -/
def pyFloatOk : J → Bool
  | .num _ => true
  | .bool _ => true
  | .str s =>
    let t := s.data.dropWhile (fun c => c = ' ')
    let t := match t with
      | '+' :: r => r
      | '-' :: r => r
      | r => r
    let intPart := t.takeWhile Char.isDigit
    let rest := t.dropWhile Char.isDigit
    (match rest with
     | [] => !intPart.isEmpty
     | '.' :: frac => (!intPart.isEmpty || !frac.isEmpty) && frac.all Char.isDigit
     | _ => false)
  | _ => false

/-- `pipeline.run_assessment_pipeline`, generic in the adapter and the stage-C
parse function.  `uuid` and `now` model `uuid.uuid4()` / `datetime.utcnow()`;
`persist` models the outcome of `create_assessment` (`none` = raised). -/
def run_assessment_pipelineG (adapter : AdapterFn) (parseFn : ParseFn) (c0 : Cache)
    (job_payload resume_payload : Obj) (seed : Int) (uuid now : String)
    (persist : Option String) : PipelineResult × Cache :=
  let (results, c) :=
    STAGE_NAMES.foldl (stageStep adapter parseFn job_payload resume_payload seed) ([], c0)
  let final_score := oGet (resGet results "D_MATCHER_SCORER") "score" (.num 0)
  ({ id := uuid
     created_at := now
     stages := results
     final_score := final_score
     job_id := oGet job_payload "job_id" .null
     resume_id := oGet resume_payload "resume_id" .null
     meta := [("seed", .num (seed : ℚ)),
              ("job_source", oGet job_payload "source_url" .null),
              ("company", oGet job_payload "company" .null),
              ("role_title", oGet (resGet results "B_JD_EXTRACT") "role_title" .null)]
     assessment_id :=
       match final_score with
       | .null => persist
       | v => if pyFloatOk v then persist else none }, c)

/-! ### Cache-key facts -/

theorem str_data_append (a b : String) : (a ++ b).data = a.data ++ b.data := rfl

/-- The tenth character of a cache key is the first character of the stage
name. -/
theorem cache_key_data_get9 (s : String) (p : J) (d : Int) (c : Char) (r : List Char)
    (hs : s.data = c :: r) : (_cache_key s p d).data.get? 9 = some c := by
  show ((("pipeline:" ++ s) ++ ":") ++ sha256hex _).data.get? 9 = some c
  rw [str_data_append, str_data_append, str_data_append,
    show ("pipeline:" : String).data = ['p', 'i', 'p', 'e', 'l', 'i', 'n', 'e', ':'] from rfl, hs]
  rfl

/-- Cache keys of stages whose names start with different characters are
distinct, whatever the payloads and seeds. -/
theorem cache_key_ne (s1 s2 : String) (c1 c2 : Char) (r1 r2 : List Char)
    (h1 : s1.data = c1 :: r1) (h2 : s2.data = c2 :: r2) (hne : c1 ≠ c2)
    (p1 p2 : J) (d1 d2 : Int) : _cache_key s1 p1 d1 ≠ _cache_key s2 p2 d2 := by
  intro h
  have e1 := cache_key_data_get9 s1 p1 d1 c1 r1 h1
  rw [h, cache_key_data_get9 s2 p2 d2 c2 r2 h2] at e1
  exact hne (Option.some.inj e1).symm

theorem cacheSet_ne (c : Cache) (k : String) (v : Obj) (k' : String) (h : k' ≠ k) :
    cacheSet c k v k' = c k' := if_neg h

/-- `_run_stage_with_cache` only ever writes the key of its own stage. -/
theorem _run_stage_with_cache_preserve (adapter : AdapterFn) (stage_name : String)
    (payload : J) (seed : Int) (c : Cache) (k : String)
    (hk : ∀ p : J, k ≠ _cache_key stage_name p seed) :
    (_run_stage_with_cache adapter stage_name payload seed c).2 k = c k := by
  unfold _run_stage_with_cache
  rcases hcv : c (_cache_key stage_name payload seed) with _ | v
  · simp only [hcv]
    exact cacheSet_ne _ _ _ _ (hk payload)
  · simp only [hcv]

/-- A stage-loop iteration only ever writes keys of the stage it runs. -/
theorem stageRun_cache_preserve (adapter : AdapterFn) (parseFn : ParseFn)
    (job resume : Obj) (seed : Int) (results : Results) (c : Cache)
    (stage_name : String) (k : String)
    (hk : ∀ p : J, k ≠ _cache_key stage_name p seed) :
    (stageRun adapter parseFn job resume seed results c stage_name).2 k = c k := by
  unfold stageRun
  split_ifs with hA hB hC hD hE hF
  · exact _run_stage_with_cache_preserve _ _ _ _ _ _ hk
  · cases buildPayloadB job (resGet results "A_JD_NORMALIZER") with
    | error e => rfl
    | ok p => exact _run_stage_with_cache_preserve _ _ _ _ _ _ hk
  · unfold stageC
    subst hC
    by_cases hft : jTruthy (oGet resume "file_text" .null)
    · rw [if_pos hft]
      cases parseFn (oGet resume "file_text" .null) (oGet resume "original_layout" (.obj [])) with
      | error e => rfl
      | ok parsed => exact cacheSet_ne _ _ _ _ (hk _)
    · rw [if_neg hft]
      exact _run_stage_with_cache_preserve _ _ _ _ _ _ hk
  · exact _run_stage_with_cache_preserve _ _ _ _ _ _ hk
  · exact _run_stage_with_cache_preserve _ _ _ _ _ _ hk
  · exact _run_stage_with_cache_preserve _ _ _ _ _ _ hk
  · exact _run_stage_with_cache_preserve _ _ _ _ _ _ hk

/-! ### Claim C2 — cache-key canonicalization -/

/-- C2: the cache key is the namespace-and-stage prefix `pipeline:{stage}:`
followed by the SHA-256 hex digest of the canonical string
`{stage}|{seed}|{payload serialized with sorted keys, fixed separators, no
extra whitespace}`; structurally equal payloads (same maps regardless of key
insertion order, at every nesting level) yield the same key, and the key is a
function of `(stage, payload, seed)` alone, so identical triples always
produce identical keys. -/
theorem C2_cache_key_canonicalization (stage : String) (seed : Int) (p1 p2 : J)
    (hw : wfJ p1 = true) (hs : SEq p1 p2) :
    _cache_key stage p1 seed = _cache_key stage p2 seed
    ∧ _cache_key stage p1 seed
        = "pipeline:" ++ stage ++ ":"
            ++ sha256hex (stage ++ "|" ++ toString seed ++ "|" ++ serJ (canonJ p1)) := by
  refine ⟨?_, rfl⟩
  unfold _cache_key _serialize_for_cache
  rw [canonJ_seq hs hw]

/-- C2 witness: a payload with shuffled key order at both nesting levels maps
to the same cache key. -/
theorem C2_cache_key_canonicalization_witness :
    wfJ (J.obj [("b", .num 1), ("a", .obj [("y", .num 2), ("x", .num 3)])]) = true
    ∧ _cache_key "D_MATCHER_SCORER"
        (J.obj [("b", .num 1), ("a", .obj [("y", .num 2), ("x", .num 3)])]) 7
      = _cache_key "D_MATCHER_SCORER"
        (J.obj [("a", .obj [("x", .num 3), ("y", .num 2)]), ("b", .num 1)]) 7 := by
  refine ⟨by decide, ?_⟩
  have hs : SEq (J.obj [("b", .num 1), ("a", .obj [("y", .num 2), ("x", .num 3)])])
      (J.obj [("a", .obj [("x", .num 3), ("y", .num 2)]), ("b", .num 1)]) := by
    refine @SEq.obj _ [("a", .obj [("y", .num 2), ("x", .num 3)]), ("b", .num 1)] _
      (List.Perm.swap _ _ _) ?_
    refine SEqO.cons ?_ (SEqO.cons (SEq.num 1) SEqO.nil)
    refine @SEq.obj _ [("x", .num 3), ("y", .num 2)] _ (List.Perm.swap _ _ _) ?_
    exact SEqO.cons (SEq.num 3) (SEqO.cons (SEq.num 2) SEqO.nil)
  exact (C2_cache_key_canonicalization "D_MATCHER_SCORER" 7 _ _ (by decide) hs).1

/-! ### Claim C8 — cache writes in the per-stage state machine -/

/-- C8 counterexample: the claim says a `CACHE_WRITE` happens only on the
SUCCESS branch, i.e. that nothing is written under the stage key when the
adapter raises.  In the code the computed result — including the
error-contained `StageResult` — is written unconditionally after a miss:
with an always-raising adapter and an empty cache, the stage key ends up
bound to the degraded error result instead of remaining absent. -/
theorem C8_counterexample :
    (_run_stage_with_cache (fun _ _ _ => .error "boom") "D_MATCHER_SCORER" (.obj []) 42
        emptyCache).2 (_cache_key "D_MATCHER_SCORER" (.obj []) 42)
      = some (errObj "boom")
    ∧ ¬ ((_run_stage_with_cache (fun _ _ _ => .error "boom") "D_MATCHER_SCORER" (.obj []) 42
        emptyCache).2 (_cache_key "D_MATCHER_SCORER" (.obj []) 42) = none) := by
  have h1 : (_run_stage_with_cache (fun _ _ _ => .error "boom") "D_MATCHER_SCORER" (.obj []) 42
      emptyCache).2 (_cache_key "D_MATCHER_SCORER" (.obj []) 42) = some (errObj "boom") := rfl
  exact ⟨h1, fun h => Option.noConfusion (h1.symm.trans h)⟩

/-- C8 amended: after a cache miss, the per-stage state machine always performs
a cache write of the computed `StageResult` under the stage's key — on the
SUCCESS branch and equally on the FAILURE (error-contained) branch; on a cache
hit no write happens and the stored value is returned. -/
theorem C8_cache_write_after_miss (adapter : AdapterFn) (stage_name : String) (payload : J)
    (seed : Int) (c : Cache)
    (hmiss : c (_cache_key stage_name payload seed) = none) :
    (_run_stage_with_cache adapter stage_name payload seed c).2
        (_cache_key stage_name payload seed)
      = some (_run_stage_with_cache adapter stage_name payload seed c).1
    ∧ (adapter stage_name payload seed = .error "boom" →
        (_run_stage_with_cache adapter stage_name payload seed c).1 = errObj "boom") := by
  unfold _run_stage_with_cache
  simp only [hmiss]
  constructor
  · simp [cacheSet]
  · intro hav
    simp only [hav]

/-- C8 amended witness. -/
theorem C8_cache_write_after_miss_witness :
    emptyCache (_cache_key "D_MATCHER_SCORER" (.obj []) 42) = none
    ∧ (_run_stage_with_cache (fun _ _ _ => .error "boom") "D_MATCHER_SCORER" (.obj []) 42
          emptyCache).2 (_cache_key "D_MATCHER_SCORER" (.obj []) 42)
        = some (_run_stage_with_cache (fun _ _ _ => .error "boom") "D_MATCHER_SCORER" (.obj [])
          42 emptyCache).1 :=
  ⟨rfl, (C8_cache_write_after_miss (fun _ _ _ => .error "boom") "D_MATCHER_SCORER" (.obj []) 42
    emptyCache rfl).1⟩

/-! ### Claim C1 — stage-error containment -/

theorem stageStep_fst (adapter : AdapterFn) (parseFn : ParseFn) (job resume : Obj) (seed : Int)
    (acc : Results × Cache) (s : String) :
    (stageStep adapter parseFn job resume seed acc s).1
      = acc.1 ++ [(s, (stageRun adapter parseFn job resume seed acc.1 acc.2 s).1)] := rfl

theorem stageStep_snd (adapter : AdapterFn) (parseFn : ParseFn) (job resume : Obj) (seed : Int)
    (acc : Results × Cache) (s : String) :
    (stageStep adapter parseFn job resume seed acc s).2
      = (stageRun adapter parseFn job resume seed acc.1 acc.2 s).2 := rfl

theorem foldl_stages_map_fst (adapter : AdapterFn) (parseFn : ParseFn) (job resume : Obj)
    (seed : Int) : ∀ (names : List String) (acc : Results × Cache),
    ((names.foldl (stageStep adapter parseFn job resume seed) acc).1).map Prod.fst
      = acc.1.map Prod.fst ++ names
  | [], acc => by simp
  | n :: t, acc => by
    rw [List.foldl_cons, foldl_stages_map_fst adapter parseFn job resume seed t _,
      stageStep_fst]
    simp

theorem stageRun_D (adapter : AdapterFn) (parseFn : ParseFn) (job resume : Obj) (seed : Int)
    (results : Results) (c : Cache) :
    stageRun adapter parseFn job resume seed results c "D_MATCHER_SCORER"
      = _run_stage_with_cache adapter "D_MATCHER_SCORER"
          (.obj [("jd", .obj (resGet results "B_JD_EXTRACT")),
                 ("resume", .obj (resGet results "C_RESUME_PARSE")),
                 ("config", oGet job "scoring_config" (.obj []))]) seed c := rfl

theorem stageRun_C (adapter : AdapterFn) (parseFn : ParseFn) (job resume : Obj) (seed : Int)
    (results : Results) (c : Cache) :
    stageRun adapter parseFn job resume seed results c "C_RESUME_PARSE"
      = stageC adapter parseFn resume seed c := rfl

/-- After stages D, E, F run on top of results `[(A, oA), (B, oB), (C, oC)]`
with a cache containing no stage-D key and an adapter that raises on stage D,
the final results bind stage D to the contained error object. -/
theorem C1_D_aux (adapter : AdapterFn) (parseFn : ParseFn) (job resume : Obj) (seed : Int)
    (msg : String) (oA oB oC : Obj) (cD : Cache)
    (hcD : ∀ p : J, cD (_cache_key "D_MATCHER_SCORER" p seed) = none)
    (hD : ∀ p : J, adapter "D_MATCHER_SCORER" p seed = .error msg) :
    resGet ((["D_MATCHER_SCORER", "E_RECOMMEND", "F_LATEX_ADAPT"].foldl
        (stageStep adapter parseFn job resume seed)
        ([("A_JD_NORMALIZER", oA), ("B_JD_EXTRACT", oB), ("C_RESUME_PARSE", oC)], cD)).1)
      "D_MATCHER_SCORER" = errObj msg := by
  have hout : (stageRun adapter parseFn job resume seed
      [("A_JD_NORMALIZER", oA), ("B_JD_EXTRACT", oB), ("C_RESUME_PARSE", oC)] cD
      "D_MATCHER_SCORER").1 = errObj msg := by
    rw [stageRun_D]
    unfold _run_stage_with_cache
    simp only [hcD, hD]
  simp only [List.foldl_cons, List.foldl_nil, stageStep_fst, stageStep_snd]
  rw [hout]
  simp [resGet, List.find?]

/-- After stages C, D, E, F run on top of results `[(A, oA), (B, oB)]` with a
truthy inline `file_text` and a raising parser, the final results bind stage C
to the contained error object. -/
theorem C1_C_aux (adapter : AdapterFn) (parseFn : ParseFn) (job resume : Obj) (seed : Int)
    (msg : String) (oA oB : Obj) (c2 : Cache)
    (hft : jTruthy (oGet resume "file_text" .null) = true)
    (hp : ∀ ft lay : J, parseFn ft lay = .error msg) :
    resGet ((["C_RESUME_PARSE", "D_MATCHER_SCORER", "E_RECOMMEND", "F_LATEX_ADAPT"].foldl
        (stageStep adapter parseFn job resume seed)
        ([("A_JD_NORMALIZER", oA), ("B_JD_EXTRACT", oB)], c2)).1)
      "C_RESUME_PARSE" = errObj msg := by
  have hout : (stageRun adapter parseFn job resume seed
      [("A_JD_NORMALIZER", oA), ("B_JD_EXTRACT", oB)] c2 "C_RESUME_PARSE").1 = errObj msg := by
    rw [stageRun_C]
    unfold stageC
    rw [if_pos hft, hp]
  simp only [List.foldl_cons, List.foldl_nil, stageStep_fst, stageStep_snd]
  rw [hout]
  simp [resGet, List.find?]

/-- C1: for every adapter behavior, stage-C parser behavior, job payload,
resume payload and seed, `run_assessment_pipeline` (started on an empty
cache) always returns a `PipelineResult` whose stages map has entries for all
six stages in order — stage exceptions are never propagated to the caller
(the model is total; the containment branch is the `except` arm of the stage
loop).  Moreover if the adapter raises on stage `D_MATCHER_SCORER`, stage D's
entry is the degraded `{error: true, error_message, confidence: 0.0}` result
while `E_RECOMMEND` and `F_LATEX_ADAPT` entries are still present, and if the
stage-C deterministic parser raises (inline `file_text` present), stage C's
entry is likewise the degraded result. -/
theorem C1_stage_error_containment (adapter : AdapterFn) (parseFn : ParseFn)
    (job resume : Obj) (seed : Int) (uuid now : String) (persist : Option String)
    (msg : String) :
    ((run_assessment_pipelineG adapter parseFn emptyCache job resume seed uuid now
        persist).1.stages.map Prod.fst = STAGE_NAMES)
    ∧ "E_RECOMMEND" ∈ (run_assessment_pipelineG adapter parseFn emptyCache job resume seed
        uuid now persist).1.stages.map Prod.fst
    ∧ "F_LATEX_ADAPT" ∈ (run_assessment_pipelineG adapter parseFn emptyCache job resume seed
        uuid now persist).1.stages.map Prod.fst
    ∧ ((∀ p : J, adapter "D_MATCHER_SCORER" p seed = .error msg) →
        resGet (run_assessment_pipelineG adapter parseFn emptyCache job resume seed uuid now
          persist).1.stages "D_MATCHER_SCORER" = errObj msg)
    ∧ (jTruthy (oGet resume "file_text" .null) = true →
        (∀ ft lay : J, parseFn ft lay = .error msg) →
        resGet (run_assessment_pipelineG adapter parseFn emptyCache job resume seed uuid now
          persist).1.stages "C_RESUME_PARSE" = errObj msg) := by
  have hstages : (run_assessment_pipelineG adapter parseFn emptyCache job resume seed uuid now
      persist).1.stages
      = (STAGE_NAMES.foldl (stageStep adapter parseFn job resume seed) ([], emptyCache)).1 := rfl
  have hmap : ((run_assessment_pipelineG adapter parseFn emptyCache job resume seed uuid now
      persist).1.stages).map Prod.fst = STAGE_NAMES := by
    rw [hstages, foldl_stages_map_fst]
    rfl
  refine ⟨hmap, by rw [hmap]; decide, by rw [hmap]; decide, ?_, ?_⟩
  · -- adapter raises on stage D
    intro hD
    rw [hstages]
    have hsplit : STAGE_NAMES
        = ["A_JD_NORMALIZER", "B_JD_EXTRACT", "C_RESUME_PARSE"]
          ++ ["D_MATCHER_SCORER", "E_RECOMMEND", "F_LATEX_ADAPT"] := rfl
    rw [hsplit, List.foldl_append]
    obtain ⟨oA, oB, oC, h3⟩ : ∃ oA oB oC,
        (["A_JD_NORMALIZER", "B_JD_EXTRACT", "C_RESUME_PARSE"].foldl
          (stageStep adapter parseFn job resume seed) ([], emptyCache)).1
        = [("A_JD_NORMALIZER", oA), ("B_JD_EXTRACT", oB), ("C_RESUME_PARSE", oC)] :=
      ⟨_, _, _, rfl⟩
    have hcD : ∀ p : J,
        (["A_JD_NORMALIZER", "B_JD_EXTRACT", "C_RESUME_PARSE"].foldl
          (stageStep adapter parseFn job resume seed) ([], emptyCache)).2
          (_cache_key "D_MATCHER_SCORER" p seed) = none := by
      intro p
      simp only [List.foldl_cons, List.foldl_nil, stageStep_snd]
      rw [stageRun_cache_preserve _ _ _ _ _ _ _ _ _ (fun q =>
          cache_key_ne "D_MATCHER_SCORER" "C_RESUME_PARSE" 'D' 'C'
            "_MATCHER_SCORER".data "_RESUME_PARSE".data rfl rfl (by decide) p q seed seed),
        stageRun_cache_preserve _ _ _ _ _ _ _ _ _ (fun q =>
          cache_key_ne "D_MATCHER_SCORER" "B_JD_EXTRACT" 'D' 'B'
            "_MATCHER_SCORER".data "_JD_EXTRACT".data rfl rfl (by decide) p q seed seed),
        stageRun_cache_preserve _ _ _ _ _ _ _ _ _ (fun q =>
          cache_key_ne "D_MATCHER_SCORER" "A_JD_NORMALIZER" 'D' 'A'
            "_MATCHER_SCORER".data "_JD_NORMALIZER".data rfl rfl (by decide) p q seed seed)]
      rfl
    have hacc : (["A_JD_NORMALIZER", "B_JD_EXTRACT", "C_RESUME_PARSE"].foldl
        (stageStep adapter parseFn job resume seed) ([], emptyCache))
        = ([("A_JD_NORMALIZER", oA), ("B_JD_EXTRACT", oB), ("C_RESUME_PARSE", oC)],
           (["A_JD_NORMALIZER", "B_JD_EXTRACT", "C_RESUME_PARSE"].foldl
             (stageStep adapter parseFn job resume seed) ([], emptyCache)).2) := by
      rw [← h3]
    rw [hacc]
    exact C1_D_aux adapter parseFn job resume seed msg oA oB oC _ hcD hD
  · -- the stage-C deterministic parser raises
    intro hft hp
    rw [hstages]
    have hsplit : STAGE_NAMES
        = ["A_JD_NORMALIZER", "B_JD_EXTRACT"]
          ++ ["C_RESUME_PARSE", "D_MATCHER_SCORER", "E_RECOMMEND", "F_LATEX_ADAPT"] := rfl
    rw [hsplit, List.foldl_append]
    obtain ⟨oA, oB, h2⟩ : ∃ oA oB,
        (["A_JD_NORMALIZER", "B_JD_EXTRACT"].foldl
          (stageStep adapter parseFn job resume seed) ([], emptyCache)).1
        = [("A_JD_NORMALIZER", oA), ("B_JD_EXTRACT", oB)] :=
      ⟨_, _, rfl⟩
    have hacc : (["A_JD_NORMALIZER", "B_JD_EXTRACT"].foldl
        (stageStep adapter parseFn job resume seed) ([], emptyCache))
        = ([("A_JD_NORMALIZER", oA), ("B_JD_EXTRACT", oB)],
           (["A_JD_NORMALIZER", "B_JD_EXTRACT"].foldl
             (stageStep adapter parseFn job resume seed) ([], emptyCache)).2) := by
      rw [← h2]
    rw [hacc]
    exact C1_C_aux adapter parseFn job resume seed msg oA oB _ hft hp

/-- C1 witness: with an adapter that always raises and a raising parser on an
inline resume text, the pipeline still produces all six stage entries, with
stages C and D bound to contained error results. -/
theorem C1_stage_error_containment_witness :
    ((run_assessment_pipelineG (fun _ _ _ => .error "boom") (fun _ _ => .error "boom")
        emptyCache [] [("file_text", .str "x")] 42 "u" "t" none).1.stages.map Prod.fst
      = STAGE_NAMES)
    ∧ resGet (run_assessment_pipelineG (fun _ _ _ => .error "boom") (fun _ _ => .error "boom")
        emptyCache [] [("file_text", .str "x")] 42 "u" "t" none).1.stages "D_MATCHER_SCORER"
      = errObj "boom"
    ∧ resGet (run_assessment_pipelineG (fun _ _ _ => .error "boom") (fun _ _ => .error "boom")
        emptyCache [] [("file_text", .str "x")] 42 "u" "t" none).1.stages "C_RESUME_PARSE"
      = errObj "boom" :=
  ⟨(C1_stage_error_containment (fun _ _ _ => .error "boom") (fun _ _ => .error "boom")
      [] [("file_text", .str "x")] 42 "u" "t" none "boom").1,
   (C1_stage_error_containment (fun _ _ _ => .error "boom") (fun _ _ => .error "boom")
      [] [("file_text", .str "x")] 42 "u" "t" none "boom").2.2.2.1 (fun _ => rfl),
   (C1_stage_error_containment (fun _ _ _ => .error "boom") (fun _ _ => .error "boom")
      [] [("file_text", .str "x")] 42 "u" "t" none "boom").2.2.2.2 rfl (fun _ _ => rfl)⟩

/-! ### Claim C6 — final score assembly -/

theorem oGet_none {d : Obj} {k : String} {dflt : J}
    (h : d.find? (fun p => decide (p.1 = k)) = none) : oGet d k dflt = dflt := by
  unfold oGet
  rw [h]

theorem oGet_some {d : Obj} {k : String} {dflt : J} {p : String × J}
    (h : d.find? (fun p => decide (p.1 = k)) = some p) : oGet d k dflt = p.2 := by
  unfold oGet
  rw [h]

/-- C6 counterexample: the claim says `final_score` defaults to `0` when stage
D's `score` field is non-numeric.  The code performs
`results.get("D_MATCHER_SCORER", {}).get("score", 0)`, which passes a present
non-numeric value through unchanged: with an adapter that returns
`{"score": "abc"}` the returned `final_score` is the string `"abc"`, not `0`. -/
theorem C6_counterexample :
    (run_assessment_pipelineG (fun _ _ _ => .ok [("score", .str "abc")])
        (fun _ _ => .error "unused") emptyCache [] [] 5 "u" "t" none).1.final_score
      = .str "abc"
    ∧ ¬ ((run_assessment_pipelineG (fun _ _ _ => .ok [("score", .str "abc")])
        (fun _ _ => .error "unused") emptyCache [] [] 5 "u" "t" none).1.final_score
      = .num 0) := by
  have h1 : (run_assessment_pipelineG (fun _ _ _ => .ok [("score", .str "abc")])
      (fun _ _ => .error "unused") emptyCache [] [] 5 "u" "t" none).1.final_score
      = .str "abc" := rfl
  refine ⟨h1, fun h => ?_⟩
  rw [h1] at h
  exact J.noConfusion h

/-- C6 amended: `final_score` is `results.get("D_MATCHER_SCORER", {}).get("score", 0)`:
it equals stage D's `score` field whenever that field is present — numeric or
not, the value is passed through unchanged — and defaults to `0` only when the
field is absent. -/
theorem C6_final_score (adapter : AdapterFn) (parseFn : ParseFn) (c0 : Cache)
    (job resume : Obj) (seed : Int) (uuid now : String) (persist : Option String) :
    (run_assessment_pipelineG adapter parseFn c0 job resume seed uuid now persist).1.final_score
      = oGet (resGet (run_assessment_pipelineG adapter parseFn c0 job resume seed uuid now
          persist).1.stages "D_MATCHER_SCORER") "score" (.num 0)
    ∧ (((resGet (run_assessment_pipelineG adapter parseFn c0 job resume seed uuid now
          persist).1.stages "D_MATCHER_SCORER").find?
            (fun p => decide (p.1 = "score"))).isNone →
        (run_assessment_pipelineG adapter parseFn c0 job resume seed uuid now
          persist).1.final_score = .num 0)
    ∧ (∀ p : String × J,
        (resGet (run_assessment_pipelineG adapter parseFn c0 job resume seed uuid now
          persist).1.stages "D_MATCHER_SCORER").find? (fun q => decide (q.1 = "score"))
          = some p →
        (run_assessment_pipelineG adapter parseFn c0 job resume seed uuid now
          persist).1.final_score = p.2) := by
  have ha : (run_assessment_pipelineG adapter parseFn c0 job resume seed uuid now
      persist).1.final_score
      = oGet (resGet (run_assessment_pipelineG adapter parseFn c0 job resume seed uuid now
          persist).1.stages "D_MATCHER_SCORER") "score" (.num 0) := rfl
  refine ⟨ha, ?_, ?_⟩
  · intro habs
    rcases hf : (resGet (run_assessment_pipelineG adapter parseFn c0 job resume seed uuid now
        persist).1.stages "D_MATCHER_SCORER").find? (fun p => decide (p.1 = "score")) with _ | p
    · rw [ha, oGet_none hf]
    · rw [hf] at habs
      simp at habs
  · intro p hp
    rw [ha, oGet_some hp]

/-- C6 amended witness: with an adapter whose stage results carry no `score`
field, the returned `final_score` is `0`. -/
theorem C6_final_score_witness :
    ((resGet (run_assessment_pipelineG (fun _ _ _ => .ok []) (fun _ _ => .error "unused")
        emptyCache [] [] 5 "u" "t" none).1.stages "D_MATCHER_SCORER").find?
          (fun p => decide (p.1 = "score"))).isNone = true
    ∧ (run_assessment_pipelineG (fun _ _ _ => .ok []) (fun _ _ => .error "unused")
        emptyCache [] [] 5 "u" "t" none).1.final_score = .num 0 :=
  ⟨rfl, (C6_final_score (fun _ _ _ => .ok []) (fun _ _ => .error "unused")
      emptyCache [] [] 5 "u" "t" none).2.1 (by rfl)⟩

/-! ### Stream worker (`app/services/worker_streams.py`, `app/services/queue.py`)

The broker (Redis streams, counters, markers) is embedded as explicit state;
`json.loads`, the object store, the text extractor and the orchestrator call
are environment parameters.  A worker-visible stream entry has the two fields
written by `enqueue_stream_job`. -/

/-- Python `str.strip()`. -/
def pyStrip (s : String) : String :=
  String.mk (((s.data.dropWhile Char.isWhitespace).reverse.dropWhile
    Char.isWhitespace).reverse)

/-- Python `int(v)` on an embedded value. -/
def jToInt : J → Except String Int
  | .num q => .ok (q.num / (q.den : Int))
  | .bool b => .ok (if b then 1 else 0)
  | .str s =>
    match (pyStrip s).toInt? with
    | some n => .ok n
    | none => .error "ValueError: invalid literal for int()"
  | _ => .error "TypeError: int() argument"

/-- Python dict assignment `d[k] = v` (replace in place, else append). -/
def objSet : Obj → String → J → Obj
  | [], k, v => [(k, v)]
  | (k', v') :: t, k, v =>
    if k' = k then (k, v) :: t else (k', v') :: objSet t k v

/-- The two fields of a stream entry as appended by `enqueue_stream_job`. -/
structure Fields where
  payload : String
  idempotency_key : String

/-- Dead-letter entry shape written by `queue.move_to_dlq`. -/
structure DlqEntry where
  original_id : String
  payload : String
  reason : String

/-- A pending (delivered, unacknowledged) entry in the consumer group. -/
structure PendingEntry where
  id : String
  consumer : String
  idle : Nat

/-- Broker-side state visible to the worker. -/
structure WState where
  markers : String → Bool
  markerTtl : String → Option Nat
  retries : String → Nat
  retryTtl : String → Option Nat
  pending : List PendingEntry
  log : List (String × Fields)
  dlq : List DlqEntry

/-- External collaborators of the worker. -/
structure WEnv where
  loads : String → Except String J
  bucket : Option String
  fetch : String → String → Except String (List Nat)
  extract : List Nat → Except String (String × String)
  runPipeline : J → J → Int → Except String Unit

/-- Atomic `SETNX` + `EXPIRE` of the idempotency marker. -/
def setMarker (st : WState) (pk : String) : WState :=
  { st with
    markers := fun k => if k = pk then true else st.markers k,
    markerTtl := fun k => if k = pk then some 604800 else st.markerTtl k }

/-- The enrichment and orchestrator-invocation tail of `_process_message`
(after the idempotency guard).  Returns the state, success, and whether the
orchestrator was invoked. -/
def processBody (env : WEnv) (st : WState) (payload : J) : WState × Bool × Bool :=
  match pyGet payload "resume_payload" (.obj []) with
  | .error _ => (st, false, false)
  | .ok rp0 =>
    match pyOr rp0 (.obj []) with
    | .obj rkvs =>
      let storage_key := oGet rkvs "storage_key" .null
      let afterFetch : Except Unit Obj :=
        if jTruthy storage_key then
          match env.bucket with
          | none => .error ()
          | some bucket =>
            match storage_key with
            | .str sk =>
              match env.fetch bucket sk with
              | .error _ => .error ()
              | .ok bytes =>
                if bytes.isEmpty then .error ()
                else
                  match env.extract bytes with
                  | .error _ => .error ()
                  | .ok (text, kind) =>
                    .ok (objSet (objSet rkvs "file_text" (.str text)) "file_type" (.str kind))
            | _ => .error ()
        else .ok rkvs
      match afterFetch with
      | .error _ => (st, false, false)
      | .ok rkvs' =>
        match pyGet payload "job_payload" (.obj []) with
        | .error _ => (st, false, false)
        | .ok jp0 =>
          let job := pyOr jp0 (.obj [])
          match jToInt (oGet (match payload with | .obj pl => pl | _ => []) "seed" (.num 42)) with
          | .error _ => (st, false, false)
          | .ok seed =>
            match env.runPipeline job (.obj rkvs') seed with
            | .ok _ => (st, true, true)
            | .error _ => (st, false, true)
    | _ => (st, false, false)

/-- `worker_streams._process_message`: payload parse, idempotency guard
(marker set before any enrichment), enrichment, orchestrator invocation.
Returns `(state, ok, orchestrator_invoked)`. -/
def _process_message (env : WEnv) (st : WState) (message_id : String) (data : Fields) :
    WState × Bool × Bool :=
  match (if data.payload = "" then .ok (.obj []) else env.loads data.payload :
      Except String J) with
  | .error _ => (st, false, false)
  | .ok payload =>
    -- (data.get("idempotency_key") or payload.get("idempotency_key") or "").strip()
    match (if data.idempotency_key ≠ "" then .ok (.str data.idempotency_key)
           else do
             let v ← pyGet payload "idempotency_key" .null
             pure (if jTruthy v then v else .str "") : Except String J) with
    | .error _ => (st, false, false)
    | .ok rawKey =>
      match rawKey with
      | .str ks =>
        let key := pyStrip ks
        if key ≠ "" then
          let pk := "processed:" ++ key
          if st.markers pk then (st, true, false)
          else processBody env (setMarker st pk) payload
        else processBody env st payload
      | _ => (st, false, false)

/-- `XACK` + `XDEL` of one entry. -/
def ackDelete (st : WState) (msgId : String) : WState :=
  { st with
    pending := st.pending.filter (fun e => decide (e.id ≠ msgId)),
    log := st.log.filter (fun e => decide (e.1 ≠ msgId)) }

/-- Success bookkeeping of the main read loop: acknowledge, delete, clear the
retry counter. -/
def ackSuccess (st : WState) (msgId : String) : WState :=
  let st1 := ackDelete st msgId
  { st1 with
    retries := fun k => if k = "retries:" ++ msgId then 0 else st1.retries k,
    retryTtl := fun k => if k = "retries:" ++ msgId then none else st1.retryTtl k }

/-- `payload_obj = json.loads(payload_json) if payload_json else {}` with the
`{"_raw": payload_json}` fallback used before a DLQ move. -/
def parsePayloadForDlq (env : WEnv) (payloadField : String) : J :=
  if payloadField = "" then .obj []
  else
    match env.loads payloadField with
    | .ok v => v
    | .error _ => .obj [("_raw", .str payloadField)]

/-- `queue.move_to_dlq`: append `{original_id, payload (JSON string), reason}`. -/
def move_to_dlq (dlq : List DlqEntry) (stream_id : String) (payload : J) (reason : String) :
    List DlqEntry :=
  dlq ++ [{ original_id := stream_id, payload := serJ payload, reason := reason }]

/-- Failure bookkeeping of the main read loop: increment the per-entry retry
counter (24h expiry); once the counter reaches the max, move to the DLQ, then
acknowledge, delete and clear the counter.  Below the max nothing else
changes. -/
def failureBookkeeping (env : WEnv) (st : WState) (msgId : String) (data : Fields)
    (maxRetries : Nat) : WState :=
  let rkey := "retries:" ++ msgId
  let r := st.retries rkey + 1
  let st1 :=
    { st with
      retries := fun k => if k = rkey then r else st.retries k,
      retryTtl := fun k => if k = rkey then some 86400 else st.retryTtl k }
  if r ≥ maxRetries then
    let payload_obj := parsePayloadForDlq env data.payload
    let st2 := { st1 with
      dlq := move_to_dlq st1.dlq msgId payload_obj
        ("exceeded " ++ toString maxRetries ++ " retries") }
    let st3 := ackDelete st2 msgId
    { st3 with
      retries := fun k => if k = rkey then 0 else st3.retries k,
      retryTtl := fun k => if k = rkey then none else st3.retryTtl k }
  else st1

/-- Per-entry outcome bookkeeping of `worker_loop`'s main read loop. -/
def worker_loop_outcome (env : WEnv) (st : WState) (msgId : String) (data : Fields)
    (ok : Bool) (maxRetries : Nat) : WState :=
  if ok then ackSuccess st msgId else failureBookkeeping env st msgId data maxRetries

/-- `XCLAIM`: transfer ownership of a pending entry to `consumer` (idle
resets). -/
def xclaim (st : WState) (consumer msgId : String) : WState :=
  { st with
    pending := st.pending.map (fun e =>
      if e.id = msgId then { e with consumer := consumer, idle := 0 } else e) }

/-- The per-entry body of `_handle_pending_claims`: claim, process; on success
acknowledge and delete (without clearing the retry counter); on failure, do
nothing further. -/
def handleClaimedEntry (env : WEnv) (st : WState) (consumer msgId : String) (data : Fields) :
    WState × Bool :=
  let st1 := xclaim st consumer msgId
  let r := _process_message env st1 msgId data
  if r.2.1 then (ackDelete r.1 msgId, true) else (r.1, false)

/-! ### Worker helper lemmas -/

/-- `processBody` never mutates broker state. -/
theorem processBody_state (env : WEnv) (st : WState) (payload : J) :
    (processBody env st payload).1 = st := by
  unfold processBody
  repeat' split
  all_goals try rfl
  all_goals dsimp only
  all_goals repeat' split
  all_goals rfl

/-- `_process_message` either leaves the state unchanged or only sets an
idempotency marker. -/
theorem processMessage_state_cases (env : WEnv) (st : WState) (msgId : String)
    (data : Fields) :
    (_process_message env st msgId data).1 = st
    ∨ ∃ pk, (_process_message env st msgId data).1 = setMarker st pk := by
  unfold _process_message
  repeat' split
  all_goals try exact Or.inl rfl
  all_goals try exact Or.inl (processBody_state _ _ _)
  all_goals dsimp only
  all_goals repeat' split
  all_goals first
    | exact Or.inl rfl
    | exact Or.inr ⟨_, processBody_state _ _ _⟩
    | exact Or.inl (processBody_state _ _ _)

/-- `setMarker` only touches the marker maps. -/
theorem setMarker_frame (st : WState) (pk : String) :
    (setMarker st pk).retries = st.retries ∧ (setMarker st pk).retryTtl = st.retryTtl
    ∧ (setMarker st pk).pending = st.pending ∧ (setMarker st pk).log = st.log
    ∧ (setMarker st pk).dlq = st.dlq :=
  ⟨rfl, rfl, rfl, rfl, rfl⟩

/-- Reprocessing guard: with a non-empty (stripped) idempotency key whose
marker is already set and a parsable payload, `_process_message` succeeds
without touching state and without invoking the orchestrator. -/
theorem processMessage_already_processed (env : WEnv) (st : WState) (msgId : String)
    (data : Fields) (payload : J) (hne : data.idempotency_key ≠ "")
    (hs : pyStrip data.idempotency_key ≠ "")
    (hp : (if data.payload = "" then Except.ok (J.obj []) else env.loads data.payload)
      = .ok payload)
    (hm : st.markers ("processed:" ++ pyStrip data.idempotency_key) = true) :
    _process_message env st msgId data = (st, true, false) := by
  unfold _process_message
  rw [hp]
  try dsimp only
  rw [if_pos hne]
  try dsimp only
  rw [if_pos hs]
  try dsimp only
  rw [hm]
  rfl

/-! ### Claim C3 — retry bookkeeping and dead-lettering -/

/-- C3: when processing of a message fails, the worker increments the
per-entry retry counter `retries:{id}` and gives it a 24h expiry; while the
(post-increment) counter is below the configured max the entry stays pending —
neither acknowledged nor deleted, and no DLQ write happens; once the counter
reaches or exceeds the max, a dead-letter entry
`{original_id, payload (JSON string), reason}` is appended to the DLQ, the
entry is acknowledged and deleted from the primary log, and the retry counter
is cleared. -/
theorem C3_retry_exhaustion_dlq (env : WEnv) (st : WState) (msgId : String) (data : Fields)
    (maxRetries : Nat) :
    (st.retries ("retries:" ++ msgId) + 1 < maxRetries →
      (worker_loop_outcome env st msgId data false maxRetries).retries ("retries:" ++ msgId)
          = st.retries ("retries:" ++ msgId) + 1
      ∧ (worker_loop_outcome env st msgId data false maxRetries).retryTtl ("retries:" ++ msgId)
          = some 86400
      ∧ (worker_loop_outcome env st msgId data false maxRetries).pending = st.pending
      ∧ (worker_loop_outcome env st msgId data false maxRetries).log = st.log
      ∧ (worker_loop_outcome env st msgId data false maxRetries).dlq = st.dlq)
    ∧ (st.retries ("retries:" ++ msgId) + 1 ≥ maxRetries →
      (worker_loop_outcome env st msgId data false maxRetries).dlq
          = st.dlq ++ [{ original_id := msgId,
                         payload := serJ (parsePayloadForDlq env data.payload),
                         reason := "exceeded " ++ toString maxRetries ++ " retries" }]
      ∧ (worker_loop_outcome env st msgId data false maxRetries).pending
          = st.pending.filter (fun e => decide (e.id ≠ msgId))
      ∧ (worker_loop_outcome env st msgId data false maxRetries).log
          = st.log.filter (fun e => decide (e.1 ≠ msgId))
      ∧ (worker_loop_outcome env st msgId data false maxRetries).retries ("retries:" ++ msgId)
          = 0
      ∧ (worker_loop_outcome env st msgId data false maxRetries).retryTtl ("retries:" ++ msgId)
          = none) := by
  constructor
  · intro hlt
    have hmax : ¬ (st.retries ("retries:" ++ msgId) + 1 ≥ maxRetries) := by omega
    unfold worker_loop_outcome failureBookkeeping
    dsimp only
    rw [if_neg hmax]
    exact ⟨by simp, by simp, rfl, rfl, rfl⟩
  · intro hge
    unfold worker_loop_outcome failureBookkeeping
    dsimp only
    rw [if_pos hge]
    exact ⟨rfl, rfl, rfl, by simp, by simp⟩

/-- Shared concrete worker environment for witnesses (`pipe` is the
orchestrator outcome). -/
def wEnvTest (pipe : Except String Unit) : WEnv :=
  { loads := fun _ => .ok (.obj [])
    bucket := none
    fetch := fun _ _ => .error "fetch unavailable"
    extract := fun _ => .error "extract unavailable"
    runPipeline := fun _ _ _ => pipe }

/-- Shared concrete broker state for witnesses: one pending entry `m1` owned
by `workerA`, present in the log, no counters or markers set. -/
def wStateTest : WState :=
  { markers := fun _ => false
    markerTtl := fun _ => none
    retries := fun _ => 0
    retryTtl := fun _ => none
    pending := [{ id := "m1", consumer := "workerA", idle := 50000 }]
    log := [("m1", { payload := "", idempotency_key := "" })]
    dlq := [] }

/-- C3 witness: a first failure under `max_retries = 5` leaves the entry
pending with counter 1; a failure under `max_retries = 1` dead-letters it. -/
theorem C3_retry_exhaustion_dlq_witness :
    (wStateTest.retries "retries:m1" + 1 < 5
      ∧ (worker_loop_outcome (wEnvTest (.ok ())) wStateTest "m1"
          { payload := "", idempotency_key := "" } false 5).retries "retries:m1" = 1
      ∧ (worker_loop_outcome (wEnvTest (.ok ())) wStateTest "m1"
          { payload := "", idempotency_key := "" } false 5).dlq = [])
    ∧ (wStateTest.retries "retries:m1" + 1 ≥ 1
      ∧ (worker_loop_outcome (wEnvTest (.ok ())) wStateTest "m1"
          { payload := "", idempotency_key := "" } false 1).dlq
        = [{ original_id := "m1", payload := serJ (.obj []),
             reason := "exceeded " ++ toString 1 ++ " retries" }]
      ∧ (worker_loop_outcome (wEnvTest (.ok ())) wStateTest "m1"
          { payload := "", idempotency_key := "" } false 1).log = []) := by
  have h1 := (C3_retry_exhaustion_dlq (wEnvTest (.ok ())) wStateTest "m1"
    { payload := "", idempotency_key := "" } 5).1 (by decide)
  have h2 := (C3_retry_exhaustion_dlq (wEnvTest (.ok ())) wStateTest "m1"
    { payload := "", idempotency_key := "" } 1).2 (by decide)
  exact ⟨⟨by decide, h1.1, h1.2.2.2.2⟩, ⟨by decide, h2.1, h2.2.2.1⟩⟩

/-- Fresh-key path of `_process_message`: with a non-empty stripped key whose
marker is not yet set, the marker is set first and processing continues on the
marked state. -/
theorem processMessage_fresh (env : WEnv) (st : WState) (msgId : String) (data : Fields)
    (payload : J) (hne : data.idempotency_key ≠ "")
    (hs : pyStrip data.idempotency_key ≠ "")
    (hp : (if data.payload = "" then Except.ok (J.obj []) else env.loads data.payload)
      = .ok payload)
    (hm : st.markers ("processed:" ++ pyStrip data.idempotency_key) = false) :
    _process_message env st msgId data
      = processBody env (setMarker st ("processed:" ++ pyStrip data.idempotency_key))
          payload := by
  unfold _process_message
  rw [hp]
  try dsimp only
  rw [if_pos hne]
  try dsimp only
  rw [if_pos hs]
  try dsimp only
  rw [if_neg (show ¬ (st.markers ("processed:" ++ pyStrip data.idempotency_key) = true) by
    rw [hm]; simp)]

/-! ### Claim C4 — idempotency guard -/

/-- C4: for an entry with a non-empty (stripped) idempotency key, the worker
sets the processed marker (set-if-absent) before processing; if the marker
already existed, `_process_message` reports success without invoking the
orchestrator, so the entry is acknowledged and deleted without reprocessing;
hence two deliveries of the same key yield exactly one orchestrator
invocation (the flag in the third component), the second being acknowledged
as already handled. -/
theorem C4_idempotent_delivery (env : WEnv) (st : WState) (msgId msgId2 : String)
    (data : Fields) (hne : data.idempotency_key ≠ "")
    (hs : pyStrip data.idempotency_key ≠ "") :
    (∀ payload : J,
        (if data.payload = "" then Except.ok (J.obj []) else env.loads data.payload)
          = .ok payload →
        st.markers ("processed:" ++ pyStrip data.idempotency_key) = true →
        _process_message env st msgId data = (st, true, false))
    ∧ (data.payload = "" →
        st.markers ("processed:" ++ pyStrip data.idempotency_key) = false →
        (_process_message env st msgId data).2.2 = true
        ∧ (_process_message env st msgId data).1
            = setMarker st ("processed:" ++ pyStrip data.idempotency_key)
        ∧ _process_message env (_process_message env st msgId data).1 msgId2 data
            = ((_process_message env st msgId data).1, true, false)
        ∧ ∀ e ∈ (worker_loop_outcome env (_process_message env st msgId data).1 msgId2 data
            true 5).log, e.1 ≠ msgId2) := by
  constructor
  · exact fun payload hp hm =>
      processMessage_already_processed env st msgId data payload hne hs hp hm
  · intro hpe hm
    have hp : (if data.payload = "" then Except.ok (J.obj []) else env.loads data.payload)
        = .ok (.obj []) := by
      rw [hpe]
      rfl
    have hfresh := processMessage_fresh env st msgId data (.obj []) hne hs hp hm
    have hbody : processBody env
        (setMarker st ("processed:" ++ pyStrip data.idempotency_key)) (.obj [])
        = (match env.runPipeline (.obj []) (.obj []) 42 with
           | .ok _ => (setMarker st ("processed:" ++ pyStrip data.idempotency_key), true, true)
           | .error _ =>
              (setMarker st ("processed:" ++ pyStrip data.idempotency_key), false, true)) := by
      unfold processBody
      rfl
    have hmark : (setMarker st ("processed:" ++ pyStrip data.idempotency_key)).markers
        ("processed:" ++ pyStrip data.idempotency_key) = true := by
      unfold setMarker
      simp
    rcases henv : env.runPipeline (.obj []) (.obj []) 42 with u | e
    all_goals rw [henv] at hbody
    all_goals try dsimp only at hbody
    all_goals rw [hfresh, hbody]
    all_goals refine ⟨rfl, rfl, ?_, ?_⟩
    all_goals try dsimp only
    all_goals first
      | exact processMessage_already_processed env _ msgId2 data (.obj []) hne hs hp hmark
      | (intro p hin
         exact of_decide_eq_true (List.mem_filter.1 hin).2)

/-- C4 witness: two deliveries of idempotency key `key1`; the first invokes
the orchestrator, the second returns success without reprocessing. -/
theorem C4_idempotent_delivery_witness :
    pyStrip "key1" ≠ ""
    ∧ (_process_message (wEnvTest (.ok ())) wStateTest "m1"
        { payload := "", idempotency_key := "key1" }).2.2 = true
    ∧ _process_message (wEnvTest (.ok ()))
        ((_process_message (wEnvTest (.ok ())) wStateTest "m1"
          { payload := "", idempotency_key := "key1" }).1) "m2"
        { payload := "", idempotency_key := "key1" }
      = ((_process_message (wEnvTest (.ok ())) wStateTest "m1"
          { payload := "", idempotency_key := "key1" }).1, true, false) := by
  have h := (C4_idempotent_delivery (wEnvTest (.ok ())) wStateTest "m1" "m2"
    { payload := "", idempotency_key := "key1" } (by decide) (by decide)).2 rfl rfl
  exact ⟨by decide, h.1, h.2.2.1⟩

/-! ### Claim C9 — marker set before enrichment (implicit) -/

/-- C9: the idempotency marker is set before enrichment, so when the first
processing attempt of an entry fails after the marker was set (here: the
object-store fetch fails for its `storage_key`), the attempt returns failure
without ever invoking the orchestrator — yet every subsequent attempt sees
the marker, returns success without enrichment or orchestration, and the
entry is then acknowledged and deleted as if handled; the pipeline is never
executed for that key. -/
theorem C9_marker_set_before_enrichment (env : WEnv) (st : WState) (msgId msgId2 : String)
    (data : Fields) (pl rkvs : Obj) (sk bucket emsg : String)
    (hne : data.idempotency_key ≠ "") (hs : pyStrip data.idempotency_key ≠ "")
    (hm : st.markers ("processed:" ++ pyStrip data.idempotency_key) = false)
    (hpe : ¬ (data.payload = "")) (hl : env.loads data.payload = .ok (.obj pl))
    (hrp : oGet pl "resume_payload" (.obj []) = .obj rkvs)
    (hsk : oGet rkvs "storage_key" .null = .str sk)
    (hsne : sk ≠ "") (hb : env.bucket = some bucket)
    (hf : env.fetch bucket sk = .error emsg) :
    _process_message env st msgId data
      = (setMarker st ("processed:" ++ pyStrip data.idempotency_key), false, false)
    ∧ _process_message env (setMarker st ("processed:" ++ pyStrip data.idempotency_key))
        msgId2 data
      = (setMarker st ("processed:" ++ pyStrip data.idempotency_key), true, false)
    ∧ (∀ e ∈ (worker_loop_outcome env
        (setMarker st ("processed:" ++ pyStrip data.idempotency_key)) msgId2 data true
        5).log, e.1 ≠ msgId2) := by
  have hp : (if data.payload = "" then Except.ok (J.obj []) else env.loads data.payload)
      = .ok (.obj pl) := by
    rw [if_neg hpe]
    exact hl
  have hfresh := processMessage_fresh env st msgId data (.obj pl) hne hs hp hm
  obtain ⟨hd, tl, rfl⟩ : ∃ hd tl, rkvs = hd :: tl := by
    cases rkvs with
    | nil =>
      rw [show oGet ([] : Obj) "storage_key" .null = .null from rfl] at hsk
      exact absurd hsk (fun h => J.noConfusion h)
    | cons hd tl => exact ⟨hd, tl, rfl⟩
  have hbody : processBody env
      (setMarker st ("processed:" ++ pyStrip data.idempotency_key)) (.obj pl)
      = (setMarker st ("processed:" ++ pyStrip data.idempotency_key), false, false) := by
    unfold processBody
    rw [show pyGet (J.obj pl) "resume_payload" (J.obj [])
        = .ok (oGet pl "resume_payload" (.obj [])) from rfl, hrp]
    try dsimp only
    rw [show pyOr (J.obj (hd :: tl)) (J.obj []) = J.obj (hd :: tl) from rfl]
    try dsimp only
    rw [hsk]
    try dsimp only
    rw [show jTruthy (J.str sk) = true from decide_eq_true hsne]
    try dsimp only
    rw [hb]
    try dsimp only
    rw [hf]
    rfl
  have hmark : (setMarker st ("processed:" ++ pyStrip data.idempotency_key)).markers
      ("processed:" ++ pyStrip data.idempotency_key) = true := by
    unfold setMarker
    simp
  refine ⟨hfresh.trans hbody, processMessage_already_processed env _ msgId2 data (.obj pl)
    hne hs hp hmark, ?_⟩
  intro p hin
  exact of_decide_eq_true (List.mem_filter.1 hin).2

/-- Concrete worker environment whose object-store fetch fails. -/
def wEnvFetchFail : WEnv :=
  { loads := fun _ => .ok (.obj [("resume_payload", .obj [("storage_key", .str "k")])])
    bucket := some "bkt"
    fetch := fun _ _ => .error "fetchfail"
    extract := fun _ => .error "extract unavailable"
    runPipeline := fun _ _ _ => .ok () }

/-- C9 witness: a fetch failure on the first delivery leaves only the marker
set; the redelivery succeeds without invoking the orchestrator. -/
theorem C9_marker_set_before_enrichment_witness :
    pyStrip "key1" ≠ ""
    ∧ _process_message wEnvFetchFail wStateTest "m1"
        { payload := "P", idempotency_key := "key1" }
      = (setMarker wStateTest ("processed:" ++ pyStrip "key1"), false, false)
    ∧ _process_message wEnvFetchFail (setMarker wStateTest ("processed:" ++ pyStrip "key1"))
        "m1" { payload := "P", idempotency_key := "key1" }
      = (setMarker wStateTest ("processed:" ++ pyStrip "key1"), true, false) := by
  have h := C9_marker_set_before_enrichment wEnvFetchFail wStateTest "m1" "m1"
    { payload := "P", idempotency_key := "key1" }
    [("resume_payload", .obj [("storage_key", .str "k")])] [("storage_key", .str "k")]
    "k" "bkt" "fetchfail" (by decide) (by decide) rfl (by decide) rfl rfl rfl (by decide)
    rfl rfl
  exact ⟨by decide, h.1, h.2.1⟩

/-! ### Claim C10 — reclaim-path failures perform no outcome bookkeeping -/

/-- C10: when a reclaimed stale pending entry fails processing in
`_handle_pending_claims`, no outcome bookkeeping happens: the per-entry
retry counter and its expiry are untouched, no dead-letter entry is written,
the entry is neither acknowledged nor deleted from the log, and within the
pending set the only change is the transfer of ownership (and idle reset) to
the claiming consumer — so failures on the reclaim path alone never advance
an entry toward the DLQ. -/
theorem C10_reclaim_failure_no_bookkeeping (env : WEnv) (st : WState)
    (consumer msgId : String) (data : Fields)
    (hfail : (_process_message env (xclaim st consumer msgId) msgId data).2.1 = false) :
    (handleClaimedEntry env st consumer msgId data).2 = false
    ∧ (handleClaimedEntry env st consumer msgId data).1.retries = st.retries
    ∧ (handleClaimedEntry env st consumer msgId data).1.retryTtl = st.retryTtl
    ∧ (handleClaimedEntry env st consumer msgId data).1.dlq = st.dlq
    ∧ (handleClaimedEntry env st consumer msgId data).1.log = st.log
    ∧ (handleClaimedEntry env st consumer msgId data).1.pending
        = st.pending.map (fun e =>
            if e.id = msgId then { e with consumer := consumer, idle := 0 } else e) := by
  have hsc := processMessage_state_cases env (xclaim st consumer msgId) msgId data
  unfold handleClaimedEntry
  try dsimp only
  rw [hfail]
  try dsimp only
  rcases hsc with h | ⟨pk, h⟩
  all_goals rw [h]
  · exact ⟨rfl, rfl, rfl, rfl, rfl, rfl⟩
  · exact ⟨rfl, rfl, rfl, rfl, rfl, rfl⟩

/-- C10 witness: a reclaimed entry whose processing fails (the orchestrator
raises) keeps its retry counter at zero, writes nothing to the DLQ, stays in
the log, and remains pending under the claiming consumer. -/
theorem C10_reclaim_failure_no_bookkeeping_witness :
    (_process_message (wEnvTest (.error "pipefail"))
        (xclaim wStateTest "workerB" "m1") "m1"
        { payload := "", idempotency_key := "" }).2.1 = false
    ∧ (handleClaimedEntry (wEnvTest (.error "pipefail")) wStateTest "workerB" "m1"
        { payload := "", idempotency_key := "" }).1.retries = wStateTest.retries
    ∧ (handleClaimedEntry (wEnvTest (.error "pipefail")) wStateTest "workerB" "m1"
        { payload := "", idempotency_key := "" }).1.dlq = wStateTest.dlq
    ∧ (handleClaimedEntry (wEnvTest (.error "pipefail")) wStateTest "workerB" "m1"
        { payload := "", idempotency_key := "" }).1.log = wStateTest.log
    ∧ (handleClaimedEntry (wEnvTest (.error "pipefail")) wStateTest "workerB" "m1"
        { payload := "", idempotency_key := "" }).1.pending
      = [{ id := "m1", consumer := "workerB", idle := 0 }] := by
  have h := C10_reclaim_failure_no_bookkeeping (wEnvTest (.error "pipefail")) wStateTest
    "workerB" "m1" { payload := "", idempotency_key := "" } rfl
  exact ⟨rfl, h.2.1, h.2.2.2.1, h.2.2.2.2.1, h.2.2.2.2.2⟩

/-! ### HTTP adapter retry loop and adapter facade
(`app/services/llm_adapter/http_adapter.py`, `app/services/llm_adapter.py`)

`post a` is the outcome of the `a`-th POST (1-indexed); the loop returns the
final outcome together with the list of back-off delays slept (in seconds,
as exact rationals). -/

/-- The `for attempt in range(1, RETRIES + 2)` retry loop of the remote
adapter: return on success; on failure sleep `BACKOFF * attempt` and continue
while `attempt <= RETRIES`, else re-raise the last exception. -/
def http_loop (post : Nat → Except String J) (retries : Nat) (backoff : ℚ)
    (attempt : Nat) : Nat → Except String J × List ℚ
  | 0 => (.error "for-loop exhausted", [])
  | r + 1 =>
    match post attempt with
    | .ok v => (.ok v, [])
    | .error e =>
      if attempt ≤ retries then
        let rest := http_loop post retries backoff (attempt + 1) r
        (rest.1, backoff * ((attempt : Nat) : ℚ) :: rest.2)
      else (.error e, [])

/-- `http_adapter.run_stage`'s retry behavior: `RETRIES + 1` total attempts
starting at attempt 1. -/
def http_adapter_run_stage (post : Nat → Except String J) (retries : Nat) (backoff : ℚ) :
    Except String J × List ℚ :=
  http_loop post retries backoff 1 (retries + 1)

/-- `llm_adapter.run_stage`: call the configured adapter; if it raises and
fallback is allowed, run the same call against the mock adapter (re-raising
the mock's own failure), else propagate the error. -/
def llm_run_stage (configured mockRun : String → J → Int → Except String Obj)
    (allowFallback : Bool) (stage_name : String) (payload : J) (seed : Int) :
    Except String Obj :=
  match configured stage_name payload seed with
  | .ok r => .ok r
  | .error e => if allowFallback then mockRun stage_name payload seed else .error e

theorem http_loop_all_fail (post : Nat → Except String J) (retries : Nat) (backoff : ℚ)
    (msg : Nat → String) (hfail : ∀ a, post a = .error (msg a)) :
    ∀ (n a : Nat), 1 ≤ a → a + n = retries + 1 →
      http_loop post retries backoff a (n + 1)
        = (.error (msg (retries + 1)),
           (List.range n).map (fun i => backoff * (((a + i : Nat)) : ℚ)))
  | 0, a, _, hsum => by
    have ha : a = retries + 1 := by omega
    unfold http_loop
    rw [hfail a]
    try dsimp only
    rw [if_neg (show ¬ a ≤ retries by omega), ha]
    rfl
  | m + 1, a, h1, hsum => by
    have hle : a ≤ retries := by omega
    have ih := http_loop_all_fail post retries backoff msg hfail m (a + 1) (by omega) (by omega)
    unfold http_loop
    rw [hfail a]
    try dsimp only
    rw [if_pos hle]
    try dsimp only
    rw [ih]
    refine congrArg _ ?_
    show _ :: _ = _
    rw [List.range_succ_eq_map, List.map_cons, List.map_map]
    refine congrArg₂ _ (by norm_num) ?_
    refine List.map_congr_left ?_
    intro i _
    show backoff * (((a + 1 + i : Nat)) : ℚ) = backoff * (((a + (i + 1) : Nat)) : ℚ)
    congr 2
    omega

/-! ### Claim C7 — remote adapter retry with backoff, facade fallback -/

/-- C7 counterexample: the claim says the delay grows multiplicatively by the
configured multiplier on each successive attempt (exponential backoff).  The
code sleeps `BACKOFF * attempt`: with `RETRIES = 3` and `BACKOFF = 1/2` the
delays are `[1/2, 1, 3/2]` — an arithmetic, not geometric, progression: they
are not `[1/2, 1/4, 1/8]`, and no ratio `r` makes them geometric. -/
theorem C7_counterexample :
    (http_adapter_run_stage (fun _ => .error "HTTP 500") 3 (1 / 2)).2 = [1 / 2, 1, 3 / 2]
    ∧ (http_adapter_run_stage (fun _ => .error "HTTP 500") 3 (1 / 2)).2
        ≠ [1 / 2, 1 / 2 * (1 / 2), 1 / 2 * (1 / 2) * (1 / 2)]
    ∧ ¬ (∃ r : ℚ, (http_adapter_run_stage (fun _ => .error "HTTP 500") 3 (1 / 2)).2
        = [1 / 2, 1 / 2 * r, 1 / 2 * r * r]) := by
  have h0 := http_loop_all_fail (fun _ => .error "HTTP 500") 3 (1 / 2)
    (fun _ => "HTTP 500") (fun _ => rfl) 3 1 (by omega) (by omega)
  have h1 : (http_adapter_run_stage (fun _ => .error "HTTP 500") 3 (1 / 2)).2
      = [1 / 2, 1, 3 / 2] := by
    show (http_loop (fun _ => .error "HTTP 500") 3 (1 / 2) 1 4).2 = _
    rw [h0]
    norm_num [List.range_succ]
  refine ⟨h1, ?_, ?_⟩
  · rw [h1]
    intro hcontra
    simp only [List.cons.injEq] at hcontra
    obtain ⟨-, h2, -⟩ := hcontra
    norm_num at h2
  · rintro ⟨r, hr⟩
    rw [h1] at hr
    simp only [List.cons.injEq] at hr
    obtain ⟨-, h2, h3, -⟩ := hr
    have hr2 : r = 2 := by linarith
    rw [hr2] at h3
    norm_num at h3

/-- C7 amended: when every POST of the remote adapter fails, the adapter makes
exactly `RETRIES + 1` bounded attempts, sleeping a linearly growing backoff
`BACKOFF * attempt` (an arithmetic progression in the configured factor, not a
multiplicative one) between attempts, then re-raises the last error; and when
the configured adapter raises and fallback is enabled, the facade runs the
same `(stage, payload, seed)` call against the deterministic local adapter and
returns its result instead of propagating (with fallback disabled the error
propagates). -/
theorem C7_retry_backoff_fallback (post : Nat → Except String J) (retries : Nat)
    (backoff : ℚ) (msg : Nat → String) (hfail : ∀ a, post a = .error (msg a))
    (configured mockRun : String → J → Int → Except String Obj) (stage_name : String)
    (payload : J) (seed : Int) (e : String)
    (hc : configured stage_name payload seed = .error e) :
    (http_adapter_run_stage post retries backoff).1 = .error (msg (retries + 1))
    ∧ (http_adapter_run_stage post retries backoff).2
        = (List.range retries).map (fun i => backoff * (((1 + i : Nat)) : ℚ))
    ∧ llm_run_stage configured mockRun true stage_name payload seed
        = mockRun stage_name payload seed
    ∧ llm_run_stage configured mockRun false stage_name payload seed = .error e := by
  have h := http_loop_all_fail post retries backoff msg hfail retries 1 (by omega) (by omega)
  refine ⟨?_, ?_, ?_, ?_⟩
  · show (http_loop post retries backoff 1 (retries + 1)).1 = _
    rw [h]
  · show (http_loop post retries backoff 1 (retries + 1)).2 = _
    rw [h]
  · unfold llm_run_stage
    rw [hc]
    rfl
  · unfold llm_run_stage
    rw [hc]
    rfl

/-- C7 witness: two retries with factor `1/2`: three failing attempts, delays
`[1/2, 1]`, and the facade falls back to the mock result for the same call. -/
theorem C7_retry_backoff_fallback_witness :
    (http_adapter_run_stage (fun _ => .error "HTTP 500") 2 (1 / 2)).1 = .error "HTTP 500"
    ∧ (http_adapter_run_stage (fun _ => .error "HTTP 500") 2 (1 / 2)).2
        = (List.range 2).map (fun i => (1 / 2 : ℚ) * (((1 + i : Nat)) : ℚ))
    ∧ llm_run_stage (fun _ _ _ => .error "conn refused")
        (fun s _ _ => .ok [("stage", .str s)]) true "B_JD_EXTRACT" (.obj []) 7
      = .ok [("stage", .str "B_JD_EXTRACT")] := by
  have h := C7_retry_backoff_fallback (fun _ => .error "HTTP 500") 2 (1 / 2)
    (fun _ => "HTTP 500") (fun _ => rfl) (fun _ _ _ => .error "conn refused")
    (fun s _ _ => .ok [("stage", .str s)]) "B_JD_EXTRACT" (.obj []) 7 "conn refused" rfl
  exact ⟨h.1, h.2.1, h.2.2.1⟩

/-! ### Python string utilities for the resume parser
(`app/services/resume_parser.py`)

Regular expressions are compiled by hand into scanners with Python `re`
leftmost / greedy / backtracking semantics for the exact patterns used by the
source.  Scanners that resume after a match use a character-count fuel so all
definitions reduce in the kernel. -/

/-- Python whitespace (`\s`, `str.strip`): space, tab, newline, carriage
return, vertical tab, form feed. -/
def pyIsSpace (c : Char) : Bool :=
  c = ' ' || c = '\t' || c = '\n' || c = '\r' || c.toNat = 11 || c.toNat = 12

/-- `str.splitlines()` (handles `\n`, `\r\n`, `\r`; no trailing empty line). -/
def pySplitLinesAux : List Char → List Char → List String
  | [], acc => if acc.isEmpty then [] else [String.mk acc.reverse]
  | '\r' :: '\n' :: rest, acc => String.mk acc.reverse :: pySplitLinesAux rest []
  | '\n' :: rest, acc => String.mk acc.reverse :: pySplitLinesAux rest []
  | '\r' :: rest, acc => String.mk acc.reverse :: pySplitLinesAux rest []
  | c :: rest, acc => pySplitLinesAux rest (c :: acc)

def pySplitLines (s : String) : List String := pySplitLinesAux s.data []

/-- `str.rstrip()`. -/
def pyRStrip (s : String) : String :=
  String.mk (s.data.reverse.dropWhile pyIsSpace).reverse

/-- `str.lstrip(chars)` for a given character set. -/
def pyLStripSet (mem : Char → Bool) (s : String) : String :=
  String.mk (s.data.dropWhile mem)

/-- `str.split()` with no arguments: split on whitespace runs, no empties. -/
def pySplitWSAux : List Char → List Char → List String
  | [], acc => if acc.isEmpty then [] else [String.mk acc.reverse]
  | c :: rest, acc =>
    if pyIsSpace c then
      if acc.isEmpty then pySplitWSAux rest []
      else String.mk acc.reverse :: pySplitWSAux rest []
    else pySplitWSAux rest (c :: acc)

def pySplitWS (s : String) : List String := pySplitWSAux s.data []

/-- `re.split("[..]+", s)`: split on runs of characters from a set, keeping
boundary empties as `re.split` does. -/
def reSplitSetAux (mem : Char → Bool) : List Char → List Char → Bool → List String
  | [], acc, _ => [String.mk acc.reverse]
  | c :: rest, acc, inRun =>
    if mem c then
      if inRun then reSplitSetAux mem rest acc true
      else String.mk acc.reverse :: reSplitSetAux mem rest [] true
    else reSplitSetAux mem rest (c :: acc) false

def reSplitSet (mem : Char → Bool) (s : String) : List String :=
  reSplitSetAux mem s.data [] false

/-- `re.split(r"\n{2,}", s)`: split on runs of two or more newlines. -/
def splitBlankLinesAux : List Char → List Char → Bool → List String
  | [], acc, _ => [String.mk acc.reverse]
  | '\n' :: '\n' :: rest, acc, false =>
    String.mk acc.reverse :: splitBlankLinesAux rest [] true
  | '\n' :: rest, acc, true => splitBlankLinesAux rest acc true
  | '\n' :: rest, acc, false => splitBlankLinesAux rest ('\n' :: acc) false
  | c :: rest, _, true => splitBlankLinesAux rest [c] false
  | c :: rest, acc, false => splitBlankLinesAux rest (c :: acc) false

def splitBlankLines (s : String) : List String := splitBlankLinesAux s.data [] false

/-- `str.split(sep)` for a single-character separator (all occurrences). -/
def splitAllCharAux (sep : Char) : List Char → List Char → List String
  | [], acc => [String.mk acc.reverse]
  | c :: rest, acc =>
    if c = sep then String.mk acc.reverse :: splitAllCharAux sep rest []
    else splitAllCharAux sep rest (c :: acc)

def splitAllChar (sep : Char) (s : String) : List String := splitAllCharAux sep s.data []

/-- Is `sub` a leading subsequence of `l`? -/
def leadsWith : List Char → List Char → Bool
  | x :: xs, y :: ys => x = y && leadsWith xs ys
  | [], _ => true
  | _, [] => false

/-- Python `sub in s` substring test. -/
def containsSub (sub : List Char) : List Char → Bool
  | [] => sub.isEmpty
  | l@(_ :: rest) => leadsWith sub l || containsSub sub rest

def strContains (s sub : String) : Bool := containsSub sub.data s.data

/-- `str.split(sep, 1)`: split at the first occurrence of `sep`. -/
def splitFirstAux (sep : List Char) : List Char → List Char → Option (String × String)
  | [], _ => none
  | l@(c :: rest), accRev =>
    if leadsWith sep l then some (String.mk accRev.reverse, String.mk (l.drop sep.length))
    else splitFirstAux sep rest (c :: accRev)

def splitFirst (sep : String) (s : String) : Option (String × String) :=
  splitFirstAux sep.data s.data []

/-- `"sep".join(items)`. -/
def strJoin (sep : String) : List String → String
  | [] => ""
  | [x] => x
  | x :: t => x ++ sep ++ strJoin sep t

/-- Python `str.isupper()`: at least one cased character and no lowercase. -/
def pyIsUpper (s : String) : Bool :=
  s.data.any Char.isAlpha && s.data.all (fun c => !c.isLower)

/-- Lowercase a string (ASCII; matches `str.lower()` on the inputs used). -/
def pyLower (s : String) : String := String.mk (s.data.map Char.toLower)

/-- `s.endswith(":")`. -/
def endsWithColon (s : String) : Bool :=
  match s.data.getLast? with
  | some c => c = ':'
  | none => false

/-- `re.match(r"^[\-=_]{3,}$", s)` as a boolean. -/
def isUnderlineRule (s : String) : Bool :=
  decide (s.data.length ≥ 3) && s.data.all (fun c => c = '-' || c = '=' || c = '_')

def hasDigit (s : String) : Bool := s.data.any Char.isDigit

/-- Digits of a numeral string as a natural number (used after `isdigit`). -/
def digitsToNat (l : List Char) : Nat :=
  l.foldl (fun acc c => acc * 10 + (c.toNat - 48)) 0

def pyIsDigitStr (s : String) : Bool :=
  !s.data.isEmpty && s.data.all Char.isDigit

/-! ### Hand-compiled regular expressions of `resume_parser` -/

/-- The `[-–—]` dash class of `YEAR_RE` (hyphen, en dash, em dash). -/
def isRangeDash (c : Char) : Bool := c = '-' || c.toNat = 0x2013 || c.toNat = 0x2014

/-- The word alternatives of `YEAR_RE`'s end group, in regex order. -/
def yearEndWord (l : List Char) : Option String :=
  if leadsWith "Present".data l then some "Present"
  else if leadsWith "present".data l then some "present"
  else if leadsWith "Now".data l then some "Now"
  else if leadsWith "now".data l then some "now"
  else if leadsWith "Current".data l then some "Current"
  else none

/-- The optional `\s*[-–—]\s*(\d{4}|Present|present|Now|now|Current)` tail. -/
def yearEndPart (rest : List Char) : Option String :=
  match rest.dropWhile pyIsSpace with
  | c :: r2 =>
    if isRangeDash c then
      let r3 := r2.dropWhile pyIsSpace
      match r3 with
      | e1 :: e2 :: e3 :: e4 :: _ =>
        if e1.isDigit && e2.isDigit && e3.isDigit && e4.isDigit then
          some (String.mk [e1, e2, e3, e4])
        else yearEndWord r3
      | _ => yearEndWord r3
    else none
  | [] => none

/-- `YEAR_RE` match attempt at one position: `(?P<start>\d{4})` plus the
optional end group. -/
def yearMatchAt : List Char → Option (String × Option String)
  | d1 :: d2 :: d3 :: d4 :: rest =>
    if d1.isDigit && d2.isDigit && d3.isDigit && d4.isDigit then
      some (String.mk [d1, d2, d3, d4], yearEndPart rest)
    else none
  | _ => none

/-- `YEAR_RE.search`: leftmost match. -/
def yearSearchAux : List Char → Option (String × Option String)
  | [] => none
  | l@(_ :: rest) =>
    match yearMatchAt l with
    | some m => some m
    | none => yearSearchAux rest

def yearSearch (s : String) : Option (String × Option String) := yearSearchAux s.data

def hasYear (s : String) : Bool := (yearSearch s).isSome

/-- Character classes of the e-mail regex
`([a-zA-Z0-9_.+-]+@[a-zA-Z0-9-]+\.[a-zA-Z0-9-.]+)`. -/
def emailLocalChar (c : Char) : Bool :=
  c.isAlpha || c.isDigit || c = '_' || c = '.' || c = '+' || c = '-'

def emailDomChar (c : Char) : Bool := c.isAlpha || c.isDigit || c = '-'

def emailTailChar (c : Char) : Bool := c.isAlpha || c.isDigit || c = '-' || c = '.'

def emailTryAt (l : List Char) : Option String :=
  let loc := l.takeWhile emailLocalChar
  if loc.isEmpty then none
  else
    match l.drop loc.length with
    | '@' :: r2 =>
      let dom := r2.takeWhile emailDomChar
      if dom.isEmpty then none
      else
        match r2.drop dom.length with
        | '.' :: r4 =>
          let tl := r4.takeWhile emailTailChar
          if tl.isEmpty then none
          else some (String.mk (loc ++ '@' :: dom ++ '.' :: tl))
        | _ => none
    | _ => none

def emailSearchAux : List Char → Option String
  | [] => none
  | l@(_ :: rest) =>
    match emailTryAt l with
    | some m => some m
    | none => emailSearchAux rest

def emailSearch (s : String) : Option String := emailSearchAux s.data

/-- The `[\d\s\-\(\)]` class of the phone regex. -/
def phoneMidChar (c : Char) : Bool :=
  c.isDigit || pyIsSpace c || c = '-' || c = '(' || c = ')'

/-- Largest index `k ≥ 6` of `run` holding a digit (the greedy `{6,}`
quantifier backtracking to the final `\d`). -/
def lastDigitIdxFrom6 (run : List Char) : Option Nat :=
  (((run.enum.filter (fun p => decide (p.1 ≥ 6) && p.2.isDigit)).map Prod.fst)).getLast?

/-- `(\+?\d[\d\s\-\(\)]{6,}\d)` match attempt at one position. -/
def phoneTryAt (l : List Char) : Option String :=
  let (plus, r0) := match l with
    | '+' :: r => ([('+' : Char)], r)
    | r => (([] : List Char), r)
  match r0 with
  | d :: r1 =>
    if d.isDigit then
      let run := r1.takeWhile phoneMidChar
      match lastDigitIdxFrom6 run with
      | some k => some (String.mk (plus ++ d :: run.take (k + 1)))
      | none => none
    else none
  | [] => none

def phoneSearchAux : List Char → Option String
  | [] => none
  | l@(_ :: rest) =>
    match phoneTryAt l with
    | some m => some m
    | none => phoneSearchAux rest

def phoneSearch (s : String) : Option String := phoneSearchAux s.data

/-- `PERCENT_RE = (\d+(?:\.\d+)?%)` match attempt; returns the match and the
remaining suffix. -/
def percentTryAt (l : List Char) : Option (String × List Char) :=
  let ds := l.takeWhile Char.isDigit
  if ds.isEmpty then none
  else
    match l.drop ds.length with
    | '.' :: r2 =>
      let fs := r2.takeWhile Char.isDigit
      if fs.isEmpty then none
      else
        match r2.drop fs.length with
        | '%' :: r4 => some (String.mk (ds ++ '.' :: fs ++ ['%']), r4)
        | _ => none
    | '%' :: r4 => some (String.mk (ds ++ ['%']), r4)
    | _ => none

/-- The `[,\d{3}]` class of the money regex (comma, digits, literal braces,
and the digit 3). -/
def moneyGrpChar (c : Char) : Bool :=
  c = ',' || c.isDigit || c.toNat = 123 || c.toNat = 125

/-- `MONEY_RE = (\$\s?\d{1,3}(?:[,\d{3}])*(?:\.\d+)?)` match attempt. -/
def moneyTryAt (l : List Char) : Option (String × List Char) :=
  match l with
  | '$' :: r0 =>
    let (sp, r1) :=
      match r0 with
      | c :: r =>
        if pyIsSpace c && (match r with | d :: _ => d.isDigit | [] => false) then ([c], r)
        else (([] : List Char), r0)
      | [] => (([] : List Char), r0)
    let dr := r1.takeWhile Char.isDigit
    if dr.isEmpty then none
    else
      let dmain := dr.take 3
      let rAfter := dr.drop 3 ++ r1.drop dr.length
      let grp := rAfter.takeWhile moneyGrpChar
      let r2 := rAfter.drop grp.length
      match r2 with
      | '.' :: r3 =>
        let fs := r3.takeWhile Char.isDigit
        if fs.isEmpty then some (String.mk ('$' :: sp ++ dmain ++ grp), r2)
        else some (String.mk ('$' :: sp ++ dmain ++ grp ++ '.' :: fs), r3.drop fs.length)
      | _ => some (String.mk ('$' :: sp ++ dmain ++ grp), r2)
  | _ => none

/-- Word character for `\b` (`[a-zA-Z0-9_]`). -/
def isWordChar (c : Char) : Bool := c.isAlpha || c.isDigit || c = '_'

/-- Word boundary after a match ending in `last`, followed by `rest`. -/
def boundaryAfter (last : Char) (rest : List Char) : Bool :=
  match rest with
  | [] => isWordChar last
  | c :: _ => isWordChar last != isWordChar c

/-- `NUMBER_RE = (\d+(?:\+|k|M)?(?:\.\d+)?)\b` match attempt, trying the
optional groups greedily and backtracking through the word boundary. -/
def numberTryAt (l : List Char) : Option (String × List Char) :=
  let ds := l.takeWhile Char.isDigit
  if ds.isEmpty then none
  else
    let r1 := l.drop ds.length
    let candidates : List (List Char × List Char) :=
      match r1 with
      | c :: r2 =>
        if c = '+' || c = 'k' || c = 'M' then
          (match r2 with
           | '.' :: r3 =>
             let fs := r3.takeWhile Char.isDigit
             if fs.isEmpty then [(ds ++ [c], r2), (ds, r1)]
             else [(ds ++ c :: '.' :: fs, r3.drop fs.length), (ds ++ [c], r2), (ds, r1)]
           | _ => [(ds ++ [c], r2), (ds, r1)])
        else if c = '.' then
          let fs := r1.tail.takeWhile Char.isDigit
          if fs.isEmpty then [(ds, r1)]
          else [(ds ++ '.' :: fs, r1.tail.drop fs.length), (ds, r1)]
        else [(ds, r1)]
      | [] => [(ds, r1)]
    (candidates.filter (fun p =>
      match p.1.getLast? with
      | some last => boundaryAfter last p.2
      | none => false)).head?.map (fun p => (String.mk p.1, p.2))

/-- `finditer`: leftmost non-overlapping matches, resuming after each match
(fuel = remaining character count). -/
def finditerAux (tryAt : List Char → Option (String × List Char)) :
    Nat → List Char → List String
  | 0, _ => []
  | _, [] => []
  | fuel + 1, l@(_ :: rest) =>
    match tryAt l with
    | some (m, r) => m :: finditerAux tryAt fuel r
    | none => finditerAux tryAt fuel rest

def finditer (tryAt : List Char → Option (String × List Char)) (s : String) : List String :=
  finditerAux tryAt s.data.length s.data

example : finditer percentTryAt "cut 12.5% and 7%" = ["12.5%", "7%"] := rfl
example : finditer moneyTryAt "$ 1,200.50 and $7" = ["$ 1,200.50", "$7"] := rfl
example : finditer numberTryAt "3+ years, 10k rows" = ["3", "10k"] := rfl
example : finditer numberTryAt "over 3+" = ["3"] := rfl
example : finditer numberTryAt "10k rows and 3.5 GPA" = ["10k", "3.5"] := rfl
example : yearSearch "May 2019 - Present x" = some ("2019", some "Present") := rfl
example : yearSearch "2020 - 2021" = some ("2020", some "2021") := rfl
example : yearSearch "in 2020." = some ("2020", none) := rfl
example : phoneSearch "call +1 (555) 123-4567 now" = some "+1 (555) 123-4567" := rfl
example : emailSearch "mail jane.doe+x@exa-mple.co.uk here"
    = some "jane.doe+x@exa-mple.co.uk" := rfl

/-! ### `resume_parser` section splitting and field extraction -/

/-- Section heading aliases, in source (dict insertion) order. -/
def SECTION_ALIASES : List (String × List String) :=
  [("experience", ["experience", "work experience", "professional experience",
                   "employment history", "work history"]),
   ("skills", ["skills", "technical skills", "skills & tools", "core skills"]),
   ("education", ["education", "academic", "qualifications"]),
   ("certifications", ["certifications", "certificates", "licenses"]),
   ("projects", ["projects", "selected projects"]),
   ("summary", ["summary", "professional summary", "profile", "about me"])]

/-- Collapse whitespace runs to single spaces (`re.sub(r"\s+", " ", s)`). -/
def collapseWSAux : List Char → Bool → List Char
  | [], _ => []
  | c :: rest, inRun =>
    if pyIsSpace c then
      if inRun then collapseWSAux rest true else ' ' :: collapseWSAux rest true
    else c :: collapseWSAux rest false

/-- `resume_parser._normalize_heading`. -/
def _normalize_heading (h : String) : String :=
  let s := pyLower (pyStrip h)
  let s := String.mk (s.data.map (fun c =>
    if ('a' ≤ c && c ≤ 'z') || c.isDigit || c = ' ' || c = '&' then c else ' '))
  let s := pyStrip (String.mk (collapseWSAux s.data false))
  match SECTION_ALIASES.find? (fun g => g.2.any (fun a => strContains s a)) with
  | some g => g.1
  | none => s

/-- Does the lowercased line contain any section keyword? -/
def anySectionKeyword (low : String) : Bool :=
  SECTION_ALIASES.any (fun g => g.2.any (fun kw => strContains low kw))

/-- Heading heuristic of `split_into_sections` for one line (given the next
line). -/
def isHeadingLine (line next_line : String) : Bool :=
  let t := pyStrip line
  let words := pySplitWS t
  let low := pyLower t
  (decide (words.length ≤ 6) && (pyIsUpper t || anySectionKeyword low))
  || endsWithColon t || isUnderlineRule (pyStrip next_line)

/-- Merge-or-append a section under a normalized heading. -/
def addSection (secs : List (String × String)) (k v : String) : List (String × String) :=
  if (secs.find? (fun p => decide (p.1 = k))).isSome then
    secs.map (fun p => if p.1 = k then (p.1, p.2 ++ "\n\n" ++ v) else p)
  else secs ++ [(k, v)]

/-- Build sections from the detected headings and their line ranges. -/
def sectionsFromHeadings (lines : List String) (acc : List (String × String)) :
    List (Nat × String) → List (String × String)
  | [] => acc
  | (idx, head) :: rest =>
    let e := match rest with
      | (i2, _) :: _ => i2
      | [] => lines.length
    let sec := pyStrip (strJoin "\n" ((lines.drop (idx + 1)).take (e - (idx + 1))))
    sectionsFromHeadings lines (addSection acc (_normalize_heading head) sec) rest

/-- `resume_parser.split_into_sections`. -/
def split_into_sections (text : String) : List (String × String) :=
  let lines := (pySplitLines text).map pyRStrip
  let headings := (lines.enum.filterMap (fun p =>
    let (idx, line) := p
    let t := pyStrip line
    if t = "" then none
    else if (match t.data with
             | c :: _ => c = '-' || c = '•' || c = '*'
             | [] => false) then none
    else if isHeadingLine line (lines.getD (idx + 1) "") then some (idx, t)
    else none))
  if headings.isEmpty then [("body", text)]
  else sectionsFromHeadings lines [] headings

def secFind (secs : List (String × String)) (k : String) : Option String :=
  (secs.find? (fun p => decide (p.1 = k))).map Prod.snd

/-- Is a normalized heading one of the section keys? -/
def isAliasKey (k : String) : Bool := SECTION_ALIASES.any (fun p => decide (p.1 = k))

/-- `resume_parser.extract_contact`. -/
def extract_contact (text : String) : Obj :=
  let lines := ((pySplitLines text).map pyStrip).filter (fun l => decide (l ≠ ""))
  if lines.isEmpty then
    [("name", .null), ("email", .null), ("phone", .null), ("location", .null)]
  else
    let header := strJoin "\n" (lines.take 8)
    let email := emailSearch header
    let phone0 := phoneSearch header
    let phone := match phone0 with
      | some p => if hasYear p then none else some p
      | none => none
    let name := (lines.take 4).find? (fun l =>
      !(strContains l "@") && !hasDigit l && !isAliasKey (_normalize_heading l)
      && decide ((pySplitWS l).length ≤ 6) && decide (l.data.length > 1))
    let location := ((lines.take 6).reverse).find? (fun l =>
      !(strContains l "@") && !hasDigit l && decide ((pySplitWS l).length ≤ 5))
    [("name", match name with | some n => .str n | none => .null),
     ("email", match email with | some e => .str e | none => .null),
     ("phone", match phone with | some p => .str p | none => .null),
     ("location", match location with | some l => .str l | none => .null)]

/-- `resume_parser.extract_skills_from_section`. -/
def extract_skills_from_section (skills_text : String) : List String :=
  if skills_text = "" then []
  else
    let parts := reSplitSet (fun c => c = '\n' || c.toNat = 0x2022 || c = '-') skills_text
    let tokens := parts.foldr (fun p acc =>
      ((reSplitSet (fun c => c = ',' || c = '|' || c = ';' || c = '/') p).filterMap
        (fun tok =>
          let s := pyStrip tok
          if s = "" then none
          else some (String.mk (collapseWSAux s.data false)))) ++ acc) []
    dedupeLower [] tokens
where
  /-- Order-preserving dedupe on the lowercased token. -/
  dedupeLower (seen : List String) : List String → List String
    | [] => []
    | t :: rest =>
      if seen.any (fun s => decide (s = pyLower t)) then dedupeLower seen rest
      else t :: dedupeLower (pyLower t :: seen) rest

/-- Chunks cut at year-bearing line indices (`split_experience_entries`). -/
def chunksFromIdxs (lines : List String) : List Nat → List String
  | [] => []
  | idx :: rest =>
    let e := match rest with
      | i2 :: _ => i2
      | [] => lines.length
    pyStrip (strJoin "\n" ((lines.drop idx).take (e - idx))) :: chunksFromIdxs lines rest

/-- `resume_parser.split_experience_entries`. -/
def split_experience_entries (exp_text : String) : List String :=
  if exp_text = "" then []
  else
    let blocks := ((splitBlankLines exp_text).map pyStrip).filter (fun b => decide (b ≠ ""))
    let entries := blocks.foldr (fun block acc =>
      let lines := (pySplitLines block).filter (fun l => decide (pyStrip l ≠ ""))
      let idxs := (lines.enum.filter (fun p => hasYear p.2)).map Prod.fst
      (if decide (idxs.length > 1) then
        (chunksFromIdxs lines idxs).filter (fun c => decide (c ≠ ""))
      else [block]) ++ acc) []
    entries.filter (fun e => decide (e ≠ ""))

/-- The `\s+[-—–]\s+` separator attempt of `parse_experience_entry`. -/
def tryDashSep (l : List Char) : Option (List Char) :=
  let sp1 := l.takeWhile pyIsSpace
  if sp1.isEmpty then none
  else
    match l.drop sp1.length with
    | d :: r2 =>
      if isRangeDash d then
        let sp2 := r2.takeWhile pyIsSpace
        if sp2.isEmpty then none else some (r2.drop sp2.length)
      else none
    | [] => none

/-- `re.split(r"\s+[-—–]\s+", s)` (fuel = character count). -/
def splitDashSepAux : Nat → List Char → List Char → List String
  | 0, l, acc => [String.mk (acc.reverse ++ l)]
  | fuel + 1, l, acc =>
    match l with
    | [] => [String.mk acc.reverse]
    | c :: rest =>
      match tryDashSep l with
      | some r3 => String.mk acc.reverse :: splitDashSepAux fuel r3 []
      | none => splitDashSepAux fuel rest (c :: acc)

def splitDashSep (s : String) : List String := splitDashSepAux s.data.length s.data []

/-- `resume_parser.parse_experience_entry`: company/title heuristics returning
`(company, title)`. -/
def headerCompanyTitle (header : String) (lines : List String) :
    Option String × Option String :=
  if strContains header " at " then
    match splitFirst " at " header with
    | some (t, c) => (some (pyStrip c), some (pyStrip t))
    | none => (none, none)
  else if strContains header " - " || strContains header " — " then
    let parts := splitDashSep header
    if decide (parts.length ≥ 2) then
      let left := pyStrip (parts.getD 0 "")
      let right := pyStrip (parts.getD 1 "")
      if ["Inc", "LLC", "Ltd", "GmbH"].any (fun x => strContains right x) then
        (some right, some left)
      else if decide (left.data.length < right.data.length) then (some right, some left)
      else (some left, some right)
    else (none, none)
  else if strContains header "," then
    let parts := (splitAllChar ',' header).map pyStrip
    if decide (parts.length ≥ 2) then (some (parts.getD 1 ""), some (parts.getD 0 ""))
    else (none, none)
  else
    match lines with
    | l0 :: l1 :: _ =>
      if hasYear l1 then (some l0, none) else (some l1, some l0)
    | _ => (none, some header)

/-- Metric dicts found in one bullet (percent, then money, then number). -/
def bulletMetrics (b : String) : List J :=
  (finditer percentTryAt b).map (fun raw => .obj [("type", .str "percent"), ("raw", .str raw)])
  ++ (finditer moneyTryAt b).map (fun raw => .obj [("type", .str "money"), ("raw", .str raw)])
  ++ (finditer numberTryAt b).map (fun raw => .obj [("type", .str "number"), ("raw", .str raw)])

def optStr : Option String → J
  | some s => .str s
  | none => .null

/-- `resume_parser.parse_experience_entry`. -/
def parse_experience_entry (text : String) : Obj :=
  let lines := ((pySplitLines text).map pyStrip).filter (fun l => decide (l ≠ ""))
  let header := lines.headD ""
  let dates := (lines.take 2).findSome? yearSearch
  let start := dates.map Prod.fst
  let endGrp : Option String := match dates with
    | some (_, e) => e
    | none => none
  let ct := headerCompanyTitle header lines
  let bullets := (lines.drop 1).foldr (fun l acc =>
    if (match l.data with
        | c :: _ => c = '-' || c = '•' || c = '*'
        | [] => false) then
      pyStrip (pyLStripSet (fun c => c = '-' || c = '•' || c = '*' || c = ' ') l) :: acc
    else if hasYear l then acc
    else l :: acc) []
  let endVal : J := match endGrp with
    | some e =>
      if pyLower e = "present" || pyLower e = "now" || pyLower e = "current" then .null
      else .str e
    | none => .null
  [("company", optStr ct.1), ("title", optStr ct.2), ("start", optStr start),
   ("end", endVal), ("bullets", .arr (bullets.map .str)),
   ("metrics", .arr (bullets.foldr (fun b acc => bulletMetrics b ++ acc) []))]

/-- Consecutive pairs of a list (`for i in range(len(l) - 1)`). -/
def consecPairs : List α → List (α × α)
  | a :: b :: rest => (a, b) :: consecPairs (b :: rest)
  | _ => []

/-- Two-decimal rendering of a rational (Python's `f"{x:.2f}"`; rounding mode
abstracted as round-half-up). -/
def fmt2dp (q : ℚ) : String :=
  let cents : Int := ⌊q * 100 + 1 / 2⌋
  toString (cents / 100) ++ "."
    ++ (let r := (cents % 100).toNat
        if r < 10 then "0" ++ toString r else toString r)

/-- `resume_parser.detect_suspicious_claims`, with `datetime.utcnow().year`
made an explicit argument. -/
def detect_suspicious_claims (currentYear : Int) (experiences : List Obj) : List J :=
  let ranges : List (Int × Int × Nat) := experiences.enum.foldr (fun (i, e) acc =>
    match oGet e "start" .null with
    | .str s =>
      if pyIsDigitStr s then
        let syear : Int := digitsToNat s.data
        let eyear : Int :=
          match oGet e "end" .null with
          | .str t => if pyIsDigitStr t then digitsToNat t.data else currentYear
          | _ => currentYear
        if syear ≤ eyear then (syear, eyear, i) :: acc else acc
      else acc
    | _ => acc) []
  let sorted := List.insertionSort (fun a b : Int × Int × Nat => a.1 ≤ b.1) ranges
  let overlaps := (consecPairs sorted).foldr (fun (p : (Int × Int × Nat) × Int × Int × Nat) acc =>
    let (s1, e1, idx1) := p.1
    let (s2, e2, idx2) := p.2
    if s2 ≤ e1 then
      J.obj [("text", .str ("Overlapping dates between experiences index "
                ++ toString idx1 ++ " and " ++ toString idx2)),
             ("reason", .str ("Ranges " ++ toString s1 ++ "-" ++ toString e1 ++ " and "
                ++ toString s2 ++ "-" ++ toString e2 ++ " overlap")),
             ("confidence", .num (7 / 10))] :: acc
    else acc) []
  let tenure :=
    if ranges.isEmpty then []
    else
      let total : Int := (ranges.map (fun r => r.2.1 - r.1 + 1)).foldl (· + ·) 0
      let avg : ℚ := (total : ℚ) / (ranges.length : ℚ)
      if avg < 1 / 2 then
        [J.obj [("text", .str "Average job tenure suspiciously low"),
                ("reason", .str ("Average tenure ~" ++ fmt2dp avg ++ " years")),
                ("confidence", .num (3 / 5))]]
      else []
  overlaps ++ tenure

/-- `resume_parser.compute_confidence`. -/
def compute_confidence (parsed : Obj) : ℚ :=
  let score : ℚ :=
    (if jTruthy (oGet parsed "contact" .null)
        && (match oGet parsed "contact" .null with
            | .obj cd => jTruthy (oGet cd "email" .null) || jTruthy (oGet cd "name" .null)
            | _ => false) then 3 / 10 else 0)
    + (if jTruthy (oGet parsed "skills" .null) then 1 / 4 else 0)
    + (if jTruthy (oGet parsed "experience" .null) then 3 / 10 else 0)
    + (if jTruthy (oGet parsed "education" .null) then 1 / 20 else 0)
  min 1 score

/-- The `re.search(r"(Skills[:\s]+)(.+)", text, re.IGNORECASE)` fallback:
returns group 2. -/
def leadsWithCI : List Char → List Char → Bool
  | x :: xs, y :: ys => x.toLower = y.toLower && leadsWithCI xs ys
  | [], _ => true
  | _, [] => false

def skillsRunBacktrack (full : List Char) : Nat → Option Nat
  | 0 => none
  | k + 1 =>
    match full.drop (k + 1) with
    | c :: _ => if c ≠ '\n' then some (k + 1) else skillsRunBacktrack full k
    | [] => skillsRunBacktrack full k

def skillsInlineTryAt (l : List Char) : Option String :=
  if leadsWithCI "skills".data l then
    let r := l.drop 6
    let run := r.takeWhile (fun c => c = ':' || pyIsSpace c)
    if run.isEmpty then none
    else
      match skillsRunBacktrack r run.length with
      | some k => some (String.mk ((r.drop k).takeWhile (fun c => decide (c ≠ '\n'))))
      | none => none
  else none

def skillsInlineAux : List Char → Option String
  | [] => none
  | l@(_ :: rest) =>
    match skillsInlineTryAt l with
    | some m => some m
    | none => skillsInlineAux rest

def skillsInlineSearch (s : String) : Option String := skillsInlineAux s.data

/-- `resume_parser.parse_resume_text`, with the current UTC year (used by the
suspicious-claims heuristic) as an explicit argument. -/
def parse_resume_text (currentYear : Int) (text : String) (original_layout : J) : Obj :=
  if text = "" then
    [("contact", .obj []), ("skills", .arr []), ("experience", .arr []),
     ("education", .arr []), ("certs", .arr []), ("suspicious_claims", .arr []),
     ("original_layout", pyOr original_layout (.obj [])), ("confidence", .num 0)]
  else
    let sections := split_into_sections text
    let header_text := strJoin "\n" ((pySplitLines text).take 8)
    let contact0 := extract_contact header_text
    let contact :=
      if !jTruthy (oGet contact0 "email" .null) && !jTruthy (oGet contact0 "name" .null) then
        match secFind sections "summary" with
        | some s => extract_contact s
        | none =>
          match secFind sections "body" with
          | some b => extract_contact (strJoin "\n" ((pySplitLines b).take 8))
          | none => contact0
      else contact0
    let skills :=
      match secFind sections "skills" with
      | some s => extract_skills_from_section s
      | none =>
        match skillsInlineSearch text with
        | some g2 => extract_skills_from_section g2
        | none => []
    let experiences :=
      match secFind sections "experience" with
      | some exp_text => (split_experience_entries exp_text).map parse_experience_entry
      | none =>
        ((splitBlankLines text).filter hasYear).map parse_experience_entry
    let education :=
      match secFind sections "education" with
      | some ed => ((pySplitLines ed).map pyStrip).filter (fun l => decide (l ≠ ""))
          |>.map (fun l => J.obj [("text", .str l)])
      | none => []
    let certs :=
      match secFind sections "certifications" with
      | some ce => ((pySplitLines ce).map pyStrip).filter (fun l => decide (l ≠ ""))
          |>.map (fun l => J.obj [("text", .str l)])
      | none => []
    let suspicious := detect_suspicious_claims currentYear experiences
    let parsed : Obj :=
      [("contact", .obj contact), ("skills", .arr (skills.map .str)),
       ("experience", .arr (experiences.map .obj)), ("education", .arr education),
       ("certs", .arr certs), ("suspicious_claims", .arr suspicious),
       ("original_layout", pyOr original_layout (.obj []))]
    parsed ++ [("confidence", .num (compute_confidence parsed))]

/-! ### Default adapter (`llm_adapters/mock_adapter.py`) and the concrete
pipeline -/

/-- `llm_adapters.mock_adapter.run_stage`: deterministic mock returning
`{"stage", "confidence": 0.9, "skills": payload.get("file_text", "").split()}`. -/
def mock_run_stage (stage_name : String) (payload : J) (seed : Int) : Except String Obj :=
  match pyGet payload "file_text" (.str "") with
  | .error e => .error e
  | .ok v =>
    match v with
    | .str s =>
      .ok [("stage", .str stage_name), ("confidence", .num (9 / 10)),
           ("skills", .arr ((pySplitWS s).map .str))]
    | _ => .error "AttributeError: object has no attribute split"

/-- The default facade configuration: mock adapter with fallback allowed. -/
def default_adapter : AdapterFn :=
  fun s p d => llm_run_stage mock_run_stage mock_run_stage true s p d

/-- `pipeline.run_assessment_pipeline` with the real stage-C parser plugged
in; `currentYear` is the clock year observed by the parser run. -/
def run_assessment_pipeline (adapter : AdapterFn) (currentYear : Int) (c0 : Cache)
    (job_payload resume_payload : Obj) (seed : Int) (uuid now : String)
    (persist : Option String) : PipelineResult × Cache :=
  run_assessment_pipelineG adapter
    (fun ft lay =>
      match ft with
      | .str s => .ok (parse_resume_text currentYear s lay)
      | _ => .error "TypeError: expected str or bytes-like object")
    c0 job_payload resume_payload seed uuid now persist

/-- Number of stage-C suspicious claims in a stages map (discriminator used to
compare two runs). -/
def suspCountOfStages (st : Results) : Nat :=
  match oGet (resGet st "C_RESUME_PARSE") "suspicious_claims" .null with
  | .arr l => l.length
  | _ => 999

/-- C5: counterexample.  Two pipeline invocations with identical
`job_payload = \x7b"raw_text": "Data Analyst - SQL, Power BI"\x7d`, identical
`resume_payload` (inline `file_text` containing a `2019 - Present` experience
range), the same `seed = 123`, the same (empty) initial cache and even the same
uuid and timestamp, but observed at clock years 2019 and 2021 respectively,
return different `stages` maps: `detect_suspicious_claims` reads
`datetime.utcnow().year`, so the stage-C `suspicious_claims` list is empty in
the first run and non-empty in the second.  The spec's claim that identical
inputs and seed alone guarantee identical `stages` maps is therefore false. -/
theorem C5_counterexample :
    (run_assessment_pipeline default_adapter 2019 emptyCache
      [("raw_text", .str "Data Analyst - SQL, Power BI")]
      [("file_text", .str "went to work\n2020 - 2021\n\nother work\n2019 - Present")]
      123 "u1" "t1" none).1.stages ≠
    (run_assessment_pipeline default_adapter 2021 emptyCache
      [("raw_text", .str "Data Analyst - SQL, Power BI")]
      [("file_text", .str "went to work\n2020 - 2021\n\nother work\n2019 - Present")]
      123 "u1" "t1" none).1.stages := by
  intro h
  have h0 : suspCountOfStages (run_assessment_pipeline default_adapter 2019 emptyCache
      [("raw_text", .str "Data Analyst - SQL, Power BI")]
      [("file_text", .str "went to work\n2020 - 2021\n\nother work\n2019 - Present")]
      123 "u1" "t1" none).1.stages = 0 := by with_unfolding_all rfl
  have h1 : suspCountOfStages (run_assessment_pipeline default_adapter 2021 emptyCache
      [("raw_text", .str "Data Analyst - SQL, Power BI")]
      [("file_text", .str "went to work\n2020 - 2021\n\nother work\n2019 - Present")]
      123 "u1" "t1" none).1.stages = 1 := by with_unfolding_all rfl
  rw [h, h1] at h0
  exact absurd h0 (by decide)

/-- C5 (amended): two pipeline invocations with identical `job_payload`,
`resume_payload`, `seed` and initial cache, run under the SAME observed clock
year, produce identical `stages` maps and identical `final_score`, whatever
adapter is configured; the uuid `id` and `created_at` timestamp track their
respective draws and may differ between the runs. -/
theorem C5_determinism (adapter : AdapterFn) (currentYear : Int) (c0 : Cache)
    (job_payload resume_payload : Obj) (seed : Int) (u1 n1 u2 n2 : String)
    (p1 p2 : Option String) :
    (run_assessment_pipeline adapter currentYear c0 job_payload resume_payload
        seed u1 n1 p1).1.stages =
      (run_assessment_pipeline adapter currentYear c0 job_payload resume_payload
        seed u2 n2 p2).1.stages ∧
    (run_assessment_pipeline adapter currentYear c0 job_payload resume_payload
        seed u1 n1 p1).1.final_score =
      (run_assessment_pipeline adapter currentYear c0 job_payload resume_payload
        seed u2 n2 p2).1.final_score ∧
    (run_assessment_pipeline adapter currentYear c0 job_payload resume_payload
        seed u1 n1 p1).1.id = u1 ∧
    (run_assessment_pipeline adapter currentYear c0 job_payload resume_payload
        seed u2 n2 p2).1.created_at = n2 :=
  ⟨rfl, rfl, rfl, rfl⟩
